import Mathlib

/-
Verification development for the CI-LLM4APR content pipeline
(`src/core/models.py`, `src/publisher/static_site.py`,
`src/publisher/github_committer.py`).

Modelling conventions:
* Python `float` values are modelled as exact rationals (`ℚ`); the fixed-point
  formatting `f"{x:.1f}"` / `f"{x:.2f}"` is modelled by `fmtFixed`, which uses
  round-half-to-even on the exact rational, matching CPython's rounding rule
  applied to the exact value.
* Python `datetime` values are modelled by their ISO-8601 string
  (`datetime.isoformat()`); `strftime("%Y-%m-%d")` is the first 10 characters
  of that string.  All `datetime.utcnow()` calls of one build are modelled by a
  single `Clock` value passed explicitly.
* Python `dict` (insertion-ordered) is modelled as an association list
  `List (String × α)`: insertion of a fresh key appends at the end, assignment
  to an existing key updates in place.
* Python `set` is modelled as a duplicate-free list; `list(set(...))`
  enumeration order is unspecified in Python, the model uses first-occurrence
  order, and all theorems about such lists only use membership.
* File-system effects are modelled as returned data: the builder returns the
  persisted store/manifest contents and the list of written pages; `print`
  calls are returned as a list of log lines.
-/

/-! ## Python-style string primitives (on `List Char` / `String`) -/

/-- Characters Python's `str.split()` / `str.strip()` (no argument) treat as
whitespace: CPython's `Py_UNICODE_ISSPACE` set — ASCII whitespace 0x09-0x0D
and 0x20, the C0 separators 0x1C-0x1F, NEL 0x85, NBSP 0xA0, Ogham space mark
0x1680, the typographic spaces 0x2000-0x200A, line/paragraph separators
0x2028/0x2029, narrow no-break space 0x202F, medium mathematical space 0x205F,
and ideographic space 0x3000. -/
def pyIsSpace (c : Char) : Bool :=
  let n := c.toNat
  (0x09 ≤ n ∧ n ≤ 0x0D) ∨ (0x1C ≤ n ∧ n ≤ 0x20) ∨ n = 0x85 ∨ n = 0xA0 ∨
  n = 0x1680 ∨ (0x2000 ≤ n ∧ n ≤ 0x200A) ∨ n = 0x2028 ∨ n = 0x2029 ∨
  n = 0x202F ∨ n = 0x205F ∨ n = 0x3000

/-- Split on a predicate, keeping empty fields (like Python `str.split(sep)`
for a one-character separator, with `p` the test for that character). -/
def splitP (p : Char → Bool) : List Char → List (List Char)
  | [] => [[]]
  | c :: cs =>
    let r := splitP p cs
    if p c then [] :: r
    else match r with
      | [] => [[c]]
      | g :: gs => (c :: g) :: gs

/-- Python `str.split(ch)` for a single-character separator. -/
def pySplitOn (ch : Char) (s : List Char) : List (List Char) :=
  splitP (· = ch) s

/-- Python `sep.join(parts)` for a single string separator. -/
def pyJoin (sep : List Char) (parts : List (List Char)) : List Char :=
  List.intercalate sep parts

/-- Python whitespace-splitting `str.split()`: split on whitespace runs and
drop empty fields. -/
def pySplitWs (s : List Char) : List (List Char) :=
  (splitP pyIsSpace s).filter (· ≠ [])

/-- Python `' '.join(text.split())` — collapse all whitespace runs. -/
def pyCleanWs (s : List Char) : List Char :=
  pyJoin [' '] (pySplitWs s)

/-- Python `str.strip()` (both-sided whitespace trim). -/
def pyStrip (s : List Char) : List Char :=
  ((s.dropWhile pyIsSpace).reverse.dropWhile pyIsSpace).reverse

/-- Substring test (Python `pat in s`). -/
def containsSub (pat : List Char) : List Char → Bool
  | [] => pat.isEmpty
  | c :: cs => pat.isPrefixOf (c :: cs) || containsSub pat cs

/-- String-level substring test. -/
def strContains (s pat : String) : Bool :=
  containsSub pat.data s.data

/-- Parse a list of decimal digits into a number (`none` if empty or a
non-digit appears). -/
def parseNatDigits : List Char → Option Nat
  | [] => none
  | cs => cs.foldl (fun acc c =>
      match acc with
      | none => none
      | some n => if c.isDigit then some (n * 10 + (c.toNat - '0'.toNat)) else none)
      (some 0)

/-! ## Rational rounding and fixed-point formatting -/

/-- Round a rational to the nearest integer, ties to even (CPython's rule for
`format`). -/
def roundHalfEven (q : ℚ) : ℤ :=
  let f := ⌊q⌋
  let r := q - f
  if r < 1/2 then f
  else if 1/2 < r then f + 1
  else if f % 2 = 0 then f else f + 1

/-- Left-pad a string with zeros to width `w`. -/
def padZeros (w : ℕ) (s : String) : String :=
  String.mk (List.replicate (w - s.length) '0') ++ s

/-- Model of Python `f"{q:.df}"` on the exact rational value. -/
def fmtFixed (d : ℕ) (q : ℚ) : String :=
  let m := roundHalfEven (q * (10 : ℚ) ^ d)
  let a := m.natAbs
  (if q < 0 then "-" else "") ++ Nat.repr (a / 10 ^ d) ++ "." ++
    padZeros d (Nat.repr (a % 10 ^ d))

/-- Model of Python `f"{n:02d}"` for a natural number. -/
def fmt02 (n : ℕ) : String :=
  if n < 10 then "0" ++ Nat.repr n else Nat.repr n

/-! ## Core data model (`src/core/models.py`) -/

/-- `TopicConfig` (only the fields the publisher reads). -/
structure TopicCfg where
  name : String
  label : String
deriving Repr, DecidableEq

/-- `PaperCandidate`; `published`/`updated` are the ISO strings of the
optional datetimes. -/
structure PaperCandidate where
  topic : TopicCfg
  arxiv_id : String
  title : String
  abstract : String
  authors : List String
  categories : List String
  published : Option String
  updated : Option String
  arxiv_url : String
  pdf_url : Option String
  affiliations : List String
  comment : Option String
deriving Repr, DecidableEq

/-- `DimensionScore`. -/
structure DimensionScore where
  name : String
  weight : ℚ
  value : ℚ
deriving Repr, DecidableEq

/-- `ScoredPaper`. -/
structure ScoredPaper where
  paper : PaperCandidate
  scores : List DimensionScore
  total_score : ℚ
deriving Repr, DecidableEq

/-- `TaskItem`. -/
structure TaskItem where
  question : String
  reason : String
deriving Repr, DecidableEq

/-- `TaskFinding`. -/
structure TaskFinding where
  task : TaskItem
  answer : String
  confidence : ℚ
deriving Repr, DecidableEq

/-- `CoreSummary`. -/
structure CoreSummary where
  problem : String
  solution : String
  methodology : String
  experiments : String
  conclusion : String
deriving Repr, DecidableEq

/-- `PaperSummary`. -/
structure PaperSummary where
  paper : PaperCandidate
  topic : TopicCfg
  core_summary : Option CoreSummary
  task_list : List TaskItem
  findings : List TaskFinding
  overview : String
  score_details : ScoredPaper
  markdown : String
  brief_summary : String
deriving Repr, DecidableEq

/-- `limit_items(items, limit)` from `core/models.py`: `materialised[:limit]`
with Python slice semantics (`None` means no limit, a negative stop counts
from the end). -/
def limit_items {α : Type} (items : List α) (limit : Option ℤ) : List α :=
  match limit with
  | none => items
  | some n => if 0 ≤ n then items.take n.toNat
              else items.take ((items.length : ℤ) + n).toNat

/-! ## Score formatting (`StaticSiteBuilder._format_score`) -/

/-- Sum of the dimension weights. -/
def sumWeights (scores : List DimensionScore) : ℚ :=
  (scores.map (·.weight)).sum

/-- Sum of weight·value. -/
def sumWV (scores : List DimensionScore) : ℚ :=
  (scores.map (fun s => s.weight * s.value)).sum

/-- `total_weight = sum(score.weight for score in scores) or 1.0`
(Python `or`: a zero sum is falsy and is replaced by `1.0`). -/
def totalWeightOr1 (scores : List DimensionScore) : ℚ :=
  if sumWeights scores = 0 then 1 else sumWeights scores

/-- The exact value rendered by `_format_score` before fixed-point
formatting: `(value / total_weight) * 100`. -/
def formatScoreQ (scores : List DimensionScore) : ℚ :=
  (sumWV scores / totalWeightOr1 scores) * 100

/-- `_format_score(scored_paper)`: `f"{(value / total_weight) * 100:.1f}"`. -/
def formatScore (sp : ScoredPaper) : String :=
  fmtFixed 1 (formatScoreQ sp.scores)

/-! ## Batch identifiers (`StaticSiteBuilder._get_batch_id`) -/

/-- `_get_batch_id`: `f"{year}-W{week:02d}"` from
`datetime.utcnow().isocalendar()`; the ISO year/week are parameters of the
model (the wall clock is external input). -/
def getBatchId (year week : ℕ) : String :=
  Nat.repr year ++ "-W" ++ fmt02 week

/-- CSS style block of the paper detail page (`_render_paper`, source lines 1216-1665), after `.strip()`. -/
def paperStyleBlock : String := ":root \x7b\n  --page-max-width: 1200px;\n  --sidebar-width: 220px;\n  --bg-color: #ffffff;\n  --bg-secondary: #f8f9fa;\n  --card-bg: #ffffff;\n  --border-color: #e5e7eb;\n  --accent: #2563eb;\n  --accent-light: #eff6ff;\n  --text-primary: #111827;\n  --text-secondary: #6b7280;\n  --text-muted: #9ca3af;\n  font-family: -apple-system, BlinkMacSystemFont, \x27Segoe UI\x27, \x27Roboto\x27, \x27Helvetica\x27, \x27Arial\x27, sans-serif;\n\x7d\n\n* \x7b\n  box-sizing: border-box;\n  margin: 0;\n  padding: 0;\n\x7d\n\nbody \x7b\n  margin: 0;\n  min-height: 100vh;\n  background: var(--bg-color);\n  color: var(--text-primary);\n  line-height: 1.6;\n\x7d\n\n.page \x7b\n  min-height: 100vh;\n  display: flex;\n\x7d\n\n/* Left Sidebar TOC */\n.sidebar-toc \x7b\n  width: var(--sidebar-width);\n  background: var(--bg-secondary);\n  border-right: 1px solid var(--border-color);\n  position: fixed;\n  left: 0;\n  top: 0;\n  bottom: 0;\n  overflow-y: auto;\n  z-index: 100;\n\x7d\n\n.toc-header \x7b\n  padding: 1.5rem 1rem;\n  border-bottom: 1px solid var(--border-color);\n\x7d\n\n.toc-header a \x7b\n  display: block;\n  font-size: 1rem;\n  font-weight: 700;\n  text-transform: uppercase;\n  letter-spacing: 0.05em;\n  color: var(--text-primary);\n  text-decoration: none;\n  transition: color 0.2s;\n\x7d\n\n.toc-header a:hover \x7b\n  color: var(--accent);\n\x7d\n\n/* Paper Info in Sidebar */\n.sidebar-paper-info \x7b\n  padding: 1rem;\n  border-bottom: 1px solid var(--border-color);\n\x7d\n\n.sidebar-paper-info h3 \x7b\n  font-size: 0.75rem;\n  font-weight: 600;\n  text-transform: uppercase;\n  letter-spacing: 0.05em;\n  color: var(--text-muted);\n  margin-bottom: 0.75rem;\n\x7d\n\n/* Navigation Section Header */\n.sidebar-nav-header \x7b\n  padding: 1rem 1rem 0.5rem;\n\x7d\n\n.sidebar-nav-header h3 \x7b\n  font-size: 0.75rem;\n  font-weight: 600;\n  text-transform: uppercase;\n  letter-spacing: 0.05em;\n  color: var(--text-muted);\n  margin-bottom: 0;\n\x7d\n\n.sidebar-info-item \x7b\n  display: flex;\n  flex-direction: column;\n  gap: 0.25rem;\n  padding: 0.5rem 0;\n  font-size: 0.875rem;\n  border-bottom: 1px solid var(--bg-secondary);\n\x7d\n\n.sidebar-info-item:last-child \x7b\n  border-bottom: none;\n\x7d\n\n.sidebar-info-label \x7b\n  color: var(--text-muted);\n  font-weight: 500;\n  font-size: 0.75rem;\n\x7d\n\n.sidebar-info-value \x7b\n  color: var(--text-primary);\n  font-weight: 600;\n  word-break: break-word;\n\x7d\n\n.sidebar-info-value a \x7b\n  color: var(--accent);\n  text-decoration: none;\n\x7d\n\n.sidebar-info-value a:hover \x7b\n  text-decoration: underline;\n\x7d\n\n.toc-nav \x7b\n  padding: 1rem 0;\n\x7d\n\n.toc-nav ul \x7b\n  list-style: none;\n\x7d\n\n.toc-nav li \x7b\n  margin: 0.25rem 0;\n\x7d\n\n.toc-nav a \x7b\n  display: block;\n  padding: 0.5rem 1rem;\n  color: var(--text-secondary);\n  text-decoration: none;\n  font-size: 0.875rem;\n  transition: all 0.2s;\n\x7d\n\n.toc-nav a:hover \x7b\n  background: var(--accent-light);\n  color: var(--accent);\n  border-left: 3px solid var(--accent);\n\x7d\n\n/* Main Content */\n.main-content \x7b\n  margin-left: var(--sidebar-width);\n  flex: 1;\n  display: flex;\n  flex-direction: column;\n\x7d\n\n.top-bar \x7b\n  background: var(--card-bg);\n  border-bottom: 1px solid var(--border-color);\n  padding: 1.25rem 2rem;\n  position: sticky;\n  top: 0;\n  z-index: 50;\n  display: flex;\n  justify-content: space-between;\n  align-items: center;\n  gap: 1.5rem;\n\x7d\n\n.top-bar-title \x7b\n  flex: 1;\n  min-width: 0;\n\x7d\n\n.paper-title \x7b\n  font-size: 1.5rem;\n  font-weight: 700;\n  line-height: 1.4;\n  margin: 0;\n  overflow: hidden;\n  text-overflow: ellipsis;\n  display: -webkit-box;\n  -webkit-line-clamp: 2;\n  -webkit-box-orient: vertical;\n\x7d\n\n.top-bar-actions \x7b\n  display: flex;\n  gap: 0.75rem;\n  align-items: center;\n  flex-shrink: 0;\n\x7d\n\n.back-link \x7b\n  color: var(--text-secondary);\n  font-weight: 500;\n  text-decoration: none;\n  font-size: 0.875rem;\n  transition: color 0.2s;\n  white-space: nowrap;\n  padding: 0.5rem 1rem;\n  border: 1px solid var(--border-color);\n  border-radius: 6px;\n\x7d\n\n.back-link:hover \x7b\n  color: var(--accent);\n  background: var(--accent-light);\n  border-color: var(--accent);\n\x7d\n\n.lang-toggle \x7b\n  border: 1px solid var(--border-color);\n  background: var(--card-bg);\n  color: var(--text-primary);\n  border-radius: 6px;\n  padding: 0.5rem 1rem;\n  font-size: 0.875rem;\n  font-weight: 500;\n  cursor: pointer;\n  transition: all 0.2s;\n\x7d\n\n.lang-toggle:hover \x7b\n  background: var(--accent-light);\n  border-color: var(--accent);\n  color: var(--accent);\n\x7d\n\n.container \x7b\n  flex: 1;\n  max-width: var(--page-max-width);\n  margin: 0 auto;\n  padding: 1.5rem 2rem;\n  width: 100%;\n\x7d\n\n/* Paper Header - Flat Design */\n.paper-header \x7b\n  margin-bottom: 1.5rem;\n\x7d\n\n/* Flat Meta Bar - Simplified */\n.meta-bar \x7b\n  display: flex;\n  flex-direction: column;\n  gap: 0.75rem;\n  padding: 1rem 0;\n  border-bottom: 1px solid var(--border-color);\n  margin-bottom: 1.5rem;\n\x7d\n\n.meta-item \x7b\n  display: flex;\n  align-items: flex-start;\n  gap: 0.5rem;\n  font-size: 0.875rem;\n  padding: 0.5rem 0;\n\x7d\n\n.meta-icon \x7b\n  font-size: 1.125rem;\n  flex-shrink: 0;\n  margin-top: 0.125rem;\n\x7d\n\n.meta-label \x7b\n  color: var(--text-muted);\n  font-weight: 500;\n  flex-shrink: 0;\n  min-width: 4rem;\n\x7d\n\n.meta-value \x7b\n  color: var(--text-primary);\n  font-weight: 600;\n  word-break: break-word;\n  line-height: 1.6;\n  flex: 1;\n\x7d\n\n.meta-value a \x7b\n  color: var(--accent);\n  text-decoration: none;\n\x7d\n\n.meta-value a:hover \x7b\n  text-decoration: underline;\n\x7d\n\n/* Section Cards - Flat Design */\n.section-card \x7b\n  background: var(--card-bg);\n  border: 1px solid var(--border-color);\n  border-radius: 8px;\n  padding: 1.5rem;\n  margin-bottom: 1.5rem;\n  scroll-margin-top: 4rem;\n\x7d\n\n.section-card h2 \x7b\n  margin: 0 0 1rem;\n  font-size: 1.375rem;\n  font-weight: 700;\n  color: var(--text-primary);\n\x7d\n\n.section-card h3 \x7b\n  font-size: 1.125rem;\n  font-weight: 600;\n  color: var(--text-secondary);\n  margin: 1.5rem 0 0.75rem;\n\x7d\n\n.section-card p \x7b\n  margin: 0 0 1rem;\n  line-height: 1.7;\n  color: var(--text-primary);\n\x7d\n\n/* Brief Summary - Accent Background */\n.brief-summary \x7b\n  background: var(--accent-light);\n  border-left: 3px solid var(--accent);\n\x7d\n\n/* Question Cards - Flat Design */\n.todo-list \x7b\n  list-style: none;\n  display: flex;\n  flex-direction: column;\n  gap: 1rem;\n\x7d\n\n.todo-list li \x7b\n  padding: 1.25rem;\n  background: var(--bg-secondary);\n  border: 1px solid var(--border-color);\n  border-radius: 8px;\n  transition: all 0.2s;\n\x7d\n\n.todo-list li:hover \x7b\n  border-color: var(--accent);\n  background: var(--accent-light);\n\x7d\n\n.todo-question \x7b\n  display: block;\n  font-weight: 600;\n  font-size: 1.05rem;\n  margin-bottom: 0.5rem;\n  color: var(--text-primary);\n\x7d\n\n.todo-reason \x7b\n  color: var(--text-secondary);\n  font-size: 0.875rem;\n  line-height: 1.6;\n\x7d\n\n/* Findings */\n.finding \x7b\n  padding: 1.25rem 0;\n  border-top: 1px solid var(--border-color);\n\x7d\n\n.finding:first-of-type \x7b\n  padding-top: 0;\n  border-top: none;\n\x7d\n\n.finding h3 \x7b\n  margin: 0 0 0.75rem;\n  font-size: 1.125rem;\n  font-weight: 600;\n  color: var(--text-primary);\n\x7d\n\n.finding p \x7b\n  margin: 0 0 0.5rem;\n  line-height: 1.75;\n  color: var(--text-primary);\n\x7d\n\n.finding .confidence \x7b\n  font-size: 0.875rem;\n  color: var(--text-muted);\n  font-weight: 500;\n\x7d\n\n.site-footer \x7b\n  text-align: center;\n  padding: 2rem;\n  color: var(--text-muted);\n  font-size: 0.875rem;\n  background: var(--bg-secondary);\n  border-top: 1px solid var(--border-color);\n\x7d\n\n/* Responsive Design */\n@media (max-width: 1024px) \x7b\n  .sidebar-toc \x7b\n    transform: translateX(-100%);\n    transition: transform 0.3s;\n  \x7d\n  \n  .main-content \x7b\n    margin-left: 0;\n  \x7d\n\x7d\n\n@media (max-width: 768px) \x7b\n  .top-bar \x7b\n    padding: 1rem;\n  \x7d\n\n  .container \x7b\n    padding: 1rem;\n  \x7d\n\n  .paper-title \x7b\n    font-size: 1.5rem;\n  \x7d\n  \n  .meta-bar \x7b\n    flex-direction: column;\n    gap: 0.75rem;\n  \x7d\n  \n  .section-card \x7b\n    padding: 1.25rem;\n  \x7d\n\x7d\n\n  .paper-card h1 \x7b\n    font-size: 1.6rem;\n  \x7d\n\x7d"

/-- Shared CSS styles for index pages (`_get_index_style`), after `.strip()`. -/
def indexStyleBlock : String := ":root \x7b\n  --page-max-width: 1200px;\n  --sidebar-width: 240px;\n  --bg-color: #f8f9fa;\n  --card-bg: #ffffff;\n  --border-color: #e5e7eb;\n  --accent: #2563eb;\n  --accent-light: #eff6ff;\n  --text-primary: #111827;\n  --text-secondary: #6b7280;\n  --text-muted: #9ca3af;\n  font-family: -apple-system, BlinkMacSystemFont, \x27Segoe UI\x27, \x27Roboto\x27, \x27Helvetica\x27, \x27Arial\x27, sans-serif;\n\x7d\n* \x7b box-sizing: border-box; margin: 0; padding: 0; \x7d\nbody \x7b margin: 0; min-height: 100vh; background: var(--bg-color); color: var(--text-primary); line-height: 1.6; \x7d\n.page \x7b min-height: 100vh; display: flex; \x7d\n.sidebar \x7b width: var(--sidebar-width); background: var(--card-bg); border-right: 1px solid var(--border-color); position: fixed; left: 0; top: 0; bottom: 0; overflow-y: auto; z-index: 100; \x7d\n.sidebar-header \x7b padding: 1.5rem 1.25rem; border-bottom: 1px solid var(--border-color); \x7d\n.sidebar-header h1 \x7b font-size: 1.25rem; font-weight: 700; color: var(--text-primary); \x7d\n.sidebar-stats \x7b padding: 1rem 1.25rem; border-bottom: 1px solid var(--border-color); \x7d\n.sidebar-stats h3 \x7b font-size: 0.75rem; font-weight: 600; text-transform: uppercase; letter-spacing: 0.05em; color: var(--text-muted); margin-bottom: 0.75rem; \x7d\n.sidebar-stat-item \x7b display: flex; align-items: center; gap: 0.5rem; padding: 0.5rem 0; font-size: 0.875rem; \x7d\n.sidebar-stat-icon \x7b font-size: 1rem; \x7d\n.sidebar-stat-label \x7b color: var(--text-secondary); flex: 1; \x7d\n.sidebar-stat-value \x7b font-weight: 600; color: var(--accent); \x7d\n.sidebar-nav \x7b padding: 1rem 0; \x7d\n.sidebar-nav h3 \x7b font-size: 0.75rem; font-weight: 600; text-transform: uppercase; letter-spacing: 0.05em; color: var(--text-muted); padding: 0 1.25rem 0.5rem; \x7d\n.sidebar-nav ul \x7b list-style: none; \x7d\n.sidebar-nav li \x7b margin: 0.25rem 0; \x7d\n.sidebar-nav a \x7b display: block; padding: 0.5rem 1.25rem; color: var(--text-secondary); text-decoration: none; font-size: 0.875rem; transition: all 0.2s; \x7d\n.sidebar-nav a:hover \x7b background: var(--accent-light); color: var(--accent); \x7d\n.sidebar-archive-link \x7b padding: 1rem 1.25rem; border-top: 1px solid var(--border-color); \x7d\n.sidebar-archive-link a \x7b display: block; padding: 0.75rem 1rem; background: var(--accent-light); color: var(--accent); text-decoration: none; font-size: 0.875rem; font-weight: 600; border-radius: 6px; text-align: center; transition: all 0.2s; \x7d\n.sidebar-archive-link a:hover \x7b background: var(--accent); color: white; \x7d\n.main-content \x7b margin-left: var(--sidebar-width); flex: 1; display: flex; flex-direction: column; \x7d\n.top-bar \x7b background: var(--card-bg); border-bottom: 1px solid var(--border-color); padding: 1.25rem 2rem; display: flex; justify-content: space-between; align-items: center; position: sticky; top: 0; z-index: 50; \x7d\n.top-bar-title \x7b flex: 1; \x7d\n.top-bar-title h1 \x7b font-size: 1.75rem; font-weight: 700; margin-bottom: 0.25rem; color: var(--text-primary); \x7d\n.top-bar-title p \x7b font-size: 0.95rem; color: var(--text-secondary); margin: 0; \x7d\n.lang-toggle \x7b border: 1px solid var(--border-color); background: var(--card-bg); color: var(--text-primary); border-radius: 6px; padding: 0.5rem 1rem; font-size: 0.875rem; font-weight: 500; cursor: pointer; transition: all 0.2s; flex-shrink: 0; \x7d\n.lang-toggle:hover \x7b background: var(--accent-light); border-color: var(--accent); color: var(--accent); \x7d\n.container \x7b flex: 1; padding: 1rem 1.5rem; max-width: var(--page-max-width); margin: 0 auto; width: 100%; \x7d\n.topic-section \x7b margin-bottom: 2rem; scroll-margin-top: 4rem; \x7d\n.topic-header \x7b display: flex; align-items: center; justify-content: space-between; margin-bottom: 1rem; padding-bottom: 0.75rem; border-bottom: 2px solid var(--border-color); \x7d\n.topic-title \x7b font-size: 1.5rem; font-weight: 700; color: var(--text-primary); \x7d\n.topic-count \x7b font-size: 0.875rem; color: var(--text-muted); background: var(--bg-color); padding: 0.25rem 0.75rem; border-radius: 12px; \x7d\n.paper-list \x7b list-style: none; background: var(--card-bg); border: 1px solid var(--border-color); border-radius: 8px; overflow: hidden; \x7d\n.paper-item \x7b padding: 0.875rem 1.25rem; border-bottom: 1px solid var(--border-color); transition: background 0.2s; \x7d\n.paper-item:last-child \x7b border-bottom: none; \x7d\n.paper-item:hover \x7b background: var(--accent-light); \x7d\n.paper-item a \x7b text-decoration: none; color: var(--text-primary); font-weight: 600; font-size: 1.05rem; line-height: 1.5; transition: color 0.2s; \x7d\n.paper-item a:hover \x7b color: var(--accent); \x7d\n.paper-meta \x7b display: flex; gap: 1.5rem; margin-top: 0.5rem; font-size: 0.875rem; color: var(--text-secondary); flex-wrap: wrap; \x7d\n.paper-meta-item \x7b display: flex; align-items: center; gap: 0.375rem; \x7d\n.site-footer \x7b text-align: center; padding: 2rem; color: var(--text-muted); font-size: 0.875rem; background: var(--card-bg); border-top: 1px solid var(--border-color); \x7d\n@media (max-width: 1024px) \x7b .sidebar \x7b transform: translateX(-100%); transition: transform 0.3s; \x7d .main-content \x7b margin-left: 0; \x7d \x7d\n@media (max-width: 768px) \x7b .top-bar \x7b padding: 1rem; flex-direction: column; align-items: flex-start; gap: 1rem; \x7d .container \x7b padding: 1rem; \x7d .paper-meta \x7b flex-direction: column; gap: 0.25rem; \x7d \x7d"

/-- Text of `_language_script` before the interpolated default language. -/
def languageScriptPre : String := "\n<script>\n(function() \x7b\n  const defaultLang = \x27"

/-- Text of `_language_script` after the interpolated default language. -/
def languageScriptPost : String := "\x27;\n  function normalise(lang) \x7b\n    if (!lang) return defaultLang;\n    const lower = lang.toLowerCase();\n    if (lower.startsWith(\x27en\x27)) return \x27en\x27;\n    return \x27zh-CN\x27;\n  \x7d\n\n  function apply(lang) \x7b\n    const norm = normalise(lang);\n    document.documentElement.setAttribute(\x27data-lang\x27, norm);\n    document.documentElement.lang = norm === \x27en\x27 ? \x27en\x27 : \x27zh-cn\x27;\n    document.querySelectorAll(\x27.i18n\x27).forEach((el) => \x7b\n      const text = norm === \x27en\x27 ? el.dataset.langEn : el.dataset.langZh;\n      if (text !== undefined) \x7b\n        el.textContent = text;\n      \x7d\n    \x7d);\n    const toggle = document.getElementById(\x27lang-toggle\x27);\n    if (toggle) \x7b\n      toggle.textContent = norm === \x27en\x27 ? \x27中文\x27 : \x27English\x27;\n    \x7d\n    localStorage.setItem(\x27ci-llm4apr-lang\x27, norm);\n  \x7d\n\n  const initial = localStorage.getItem(\x27ci-llm4apr-lang\x27) || defaultLang;\n  apply(initial);\n  const toggle = document.getElementById(\x27lang-toggle\x27);\n  if (toggle) \x7b\n    toggle.addEventListener(\x27click\x27, () => \x7b\n      const current = document.documentElement.getAttribute(\x27data-lang\x27) || defaultLang;\n      apply(current === \x27en\x27 ? \x27zh-CN\x27 : \x27en\x27);\n    \x7d);\n  \x7d\n\x7d)();\n</script>\n"

/-! ## HTML escaping and bilingual helpers (`static_site.py` lines 28-96) -/

/-- `SiteConfig` from `core/models.py`. -/
structure SiteCfg where
  output_dir : String
  base_url : String
deriving Repr, DecidableEq

/-- The site builder's configuration state (`StaticSiteBuilder.__init__`):
`language` is already normalised. -/
structure Builder where
  site_config : SiteCfg
  language : String
deriving Repr, DecidableEq

/-- `_normalise_language`: `"en"` iff the given string is truthy and starts
(case-insensitively) with `"en"`, else `"zh-CN"`. -/
def normaliseLanguage (language : Option String) : String :=
  match language with
  | some l => if l ≠ "" ∧ (l.toLower.startsWith "en") then "en" else "zh-CN"
  | none => "zh-CN"

/-- `_html_lang`. -/
def htmlLang (lang : String) : String :=
  if lang = "en" then "en" else "zh-cn"

/-- Image of one character under `html.escape(·, quote=True)`.  Python's
implementation chains `str.replace` for `&`, `<`, `>`, `"`, `'` in an order
that escapes each original character exactly once, which is extensionally
the per-character map below. -/
def escapeChar (c : Char) : List Char :=
  if c = '&' then ("&amp;").data
  else if c = '<' then ("&lt;").data
  else if c = '>' then ("&gt;").data
  else if c = '"' then ("&quot;").data
  else if c = '\x27' then ("&#x27;").data
  else [c]

/-- `_escape` on a present string: `html.escape(text, quote=True)`. -/
def htmlEscape (s : String) : String :=
  String.mk ((s.data.map escapeChar).flatten)

/-- `_escape(text)` with `text: str | None` (`text or ""`). -/
def escapeOpt (o : Option String) : String :=
  htmlEscape (o.getD "")

/-- `_i18n(zh_text, en_text)`. -/
def i18n (b : Builder) (zh en : String) : String :=
  let default_text := if b.language ≠ "en" then zh else en
  "<span class=\"i18n\" data-lang-zh=\"" ++ htmlEscape zh ++ "\" " ++
    "data-lang-en=\"" ++ htmlEscape en ++ "\">" ++ htmlEscape default_text ++ "</span>"

/-- `_lang_toggle_button`. -/
def langToggleButton : String :=
  "<button id=\x27lang-toggle\x27 type=\x27button\x27 class=\x27lang-toggle\x27 " ++
    "aria-label=\x27toggle language\x27>English</button>"

/-- `_language_script`: the fixed script text around the interpolated default
language. -/
def languageScript (b : Builder) : String :=
  languageScriptPre ++ b.language ++ languageScriptPost

/-! ## Remaining string helpers used by the renderers -/

/-- `datetime.strftime("%Y-%m-%d")` on a datetime modelled by its ISO string:
the first 10 characters. -/
def strftimeYmd (iso : String) : String := iso.take 10

/-- Split on the two-character separator `"\n\n"` (Python
`str.split("\n\n")`), non-overlapping, left to right. -/
def splitParas : List Char → List (List Char)
  | '\n' :: '\n' :: rest => [] :: splitParas rest
  | c :: rest =>
    match splitParas rest with
    | [] => [[c]]
    | g :: gs => (c :: g) :: gs
  | [] => [[]]

/-- Python `str.replace(a ++ b, repl)` for a two-character pattern,
non-overlapping, left to right. -/
def replaceSeq2 (a b2 : Char) (repl : List Char) : List Char → List Char
  | [] => []
  | [c] => [c]
  | c1 :: c2 :: rest =>
    if c1 = a ∧ c2 = b2 then repl ++ replaceSeq2 a b2 repl rest
    else c1 :: replaceSeq2 a b2 repl (c2 :: rest)

/-- Python `str.replace(c, repl)` for a one-character pattern. -/
def replaceChar (c : Char) (repl : List Char) (s : List Char) : List Char :=
  (s.map (fun ch => if ch = c then repl else [ch])).flatten

/-- `.replace("\\n", "<br/>")` — the pattern is a literal backslash followed
by `n` (an escaped newline in LLM output), not a newline. -/
def replaceBackslashN (s : String) : String :=
  String.mk (replaceSeq2 '\\' 'n' ("<br/>".data) s.data)

/-- `.replace("\n", "<br/>")` — a real newline. -/
def replaceNl (s : String) : String :=
  String.mk (replaceChar '\n' ("<br/>".data) s.data)

/-- `str.strip()` at `String` level. -/
def strStrip (s : String) : String := String.mk (pyStrip s.data)

/-- Python `"\n".join(lines)` (identical to `String.intercalate "\n"`,
defined through `List.intercalate` so list lemmas apply). -/
def joinLines (l : List String) : String :=
  String.mk (List.intercalate ("\n").data (l.map String.data))

/-- `", ".join(authors[:3])` plus `", ..."` when there are more than three
authors (the author-preview logic shared by the index renderers). -/
def authorPreview (authors : List String) : String :=
  let preview := ", ".intercalate (authors.take 3)
  if authors.length > 3 then preview ++ ", ..." else preview

/-! ## Paper detail page renderer (`StaticSiteBuilder._render_paper`) -/

/-- `_render_paper(summary)` — faithful line-by-line model of source lines
1214-1881 (the CSS constant is `paperStyleBlock`). -/
def renderPaper (b : Builder) (summary : PaperSummary) : String :=
  let html_lang := htmlLang b.language
  let style_block := paperStyleBlock
  let paper := summary.paper
  let title := htmlEscape paper.title
  let arxiv_link := htmlEscape paper.arxiv_url
  let arxiv_id := htmlEscape paper.arxiv_id
  let score := formatScore summary.score_details
  let brief_summary := strStrip summary.brief_summary
  let published_display := match paper.published with
    | some d => strftimeYmd d
    | none => ""
  let authors_display :=
    if paper.authors ≠ [] then htmlEscape (", ".intercalate paper.authors)
    else i18n b "未知作者" "Unknown authors"
  let sidebar_info_items : List (String × String) := [
    (i18n b "所属专题" "Topic", htmlEscape summary.topic.label),
    (i18n b "相关度得分" "Relevance Score", score),
    (i18n b "发表日期" "Published",
      if published_display ≠ "" then htmlEscape published_display else i18n b "未知" "Unknown"),
    ("arXiv",
      "<a href=\x27" ++ arxiv_link ++ "\x27 target=\x27_blank\x27 rel=\x27noopener\x27>" ++ arxiv_id ++ "</a>")]
  let top_meta_items : List (String × String × String) :=
    [("👤", i18n b "作者" "Authors", authors_display)] ++
      (match paper.comment with
       | some c => if c ≠ "" then [("💬", i18n b "备注" "Comment", htmlEscape c)] else []
       | none => [])
  let toc_links : List (String × String) := [
    (i18n b "论文速览" "Brief Summary", "#brief-summary"),
    (i18n b "核心内容" "Core Content", "#core-content"),
    (i18n b "关心的问题" "Questions", "#questions"),
    (i18n b "逐项解答" "Findings", "#findings"),
    (i18n b "综合总结" "Overview", "#overview")]
  let pageLines : List String :=
    ["<!DOCTYPE html>",
     "<html lang=\x27" ++ html_lang ++ "\x27>",
     "<head>",
     "  <meta charset=\x27utf-8\x27>",
     "  <meta name=\x27viewport\x27 content=\x27width=device-width, initial-scale=1\x27>",
     "  <title>" ++ title ++ "</title>",
     "  <style>" ++ style_block ++ "</style>",
     "</head>",
     "<body data-lang=\x27" ++ b.language ++ "\x27>",
     "  <div class=\x27page\x27>",
     "    <aside class=\x27sidebar-toc\x27>",
     "      <div class=\x27toc-header\x27>",
     "        <a href=\x27../..\x27>" ++ i18n b "🏠 首页" "🏠 HOME" ++ "</a>",
     "      </div>",
     "      <div class=\x27sidebar-paper-info\x27>",
     "        <h3>" ++ i18n b "论文信息" "Paper Info" ++ "</h3>"]
    ++ (sidebar_info_items.map (fun it =>
         ["        <div class=\x27sidebar-info-item\x27>",
          "          <span class=\x27sidebar-info-label\x27>" ++ it.1 ++ "</span>",
          "          <span class=\x27sidebar-info-value\x27>" ++ it.2 ++ "</span>",
          "        </div>"])).flatten
    ++ ["      </div>",
        "      <div class=\x27sidebar-nav-header\x27>",
        "        <h3>" ++ i18n b "目录导航" "Navigation" ++ "</h3>",
        "      </div>",
        "      <nav class=\x27toc-nav\x27>",
        "        <ul>"]
    ++ (toc_links.map (fun it =>
         "          <li><a href=\x27" ++ it.2 ++ "\x27>" ++ it.1 ++ "</a></li>"))
    ++ ["        </ul>",
        "      </nav>",
        "    </aside>",
        "    <div class=\x27main-content\x27>",
        "      <header class=\x27top-bar\x27>",
        "        <div class=\x27top-bar-title\x27>",
        "          <h1 class=\x27paper-title\x27>" ++ title ++ "</h1>",
        "        </div>",
        "        <div class=\x27top-bar-actions\x27>",
        "          " ++ langToggleButton,
        "        </div>",
        "      </header>",
        "      <main class=\x27container\x27>",
        "        <div class=\x27paper-header\x27>",
        "          <div class=\x27meta-bar\x27>"]
    ++ (top_meta_items.map (fun it =>
         ["            <div class=\x27meta-item\x27>",
          "              <span class=\x27meta-icon\x27>" ++ it.1 ++ "</span>",
          "              <span class=\x27meta-label\x27>" ++ it.2.1 ++ ":</span>",
          "              <span class=\x27meta-value\x27>" ++ it.2.2 ++ "</span>",
          "            </div>"])).flatten
    ++ ["          </div>",
        "        </div>"]
    ++ (if brief_summary ≠ "" then
         ["        <section class=\x27section-card brief-summary\x27 id=\x27brief-summary\x27>",
          "          <h2>" ++ i18n b "论文速览" "Brief Summary" ++ "</h2>"]
         ++ ((((splitParas brief_summary.data).map pyStrip).filter (· ≠ [])).map
              (fun p => "          <p>" ++ replaceBackslashN (htmlEscape (String.mk p)) ++ "</p>"))
         ++ ["        </section>"]
        else [])
    ++ (match summary.core_summary with
        | some core =>
          ["        <section class=\x27section-card\x27 id=\x27core-content\x27>",
           "          <h2>" ++ i18n b "📖 论文核心内容" "📖 Core Content" ++ "</h2>"]
          ++ (([(i18n b "1. 主要解决了什么问题？" "1. What problem does it solve?", core.problem),
                (i18n b "2. 提出了什么解决方案？" "2. What solution is proposed?", core.solution),
                (i18n b "3. 核心方法/步骤/策略" "3. Core methodology", core.methodology),
                (i18n b "4. 实验设计" "4. Experiment design", core.experiments),
                (i18n b "5. 结论" "5. Conclusion", core.conclusion)].map (fun it =>
                 if it.2 ≠ "" ∧ strStrip it.2 ≠ "" then
                   ["          <h3 style=\x27margin-top:1.2rem;color:var(--accent);font-size:1.05rem;\x27>"
                      ++ it.1 ++ "</h3>",
                    "          <p>" ++ replaceBackslashN (htmlEscape it.2) ++ "</p>"]
                 else []))).flatten
          ++ ["        </section>"]
        | none => [])
    ++ ["        <section class=\x27section-card\x27 id=\x27questions\x27>",
        "          <h2>" ++ i18n b "🤔 用户关心的问题" "🤔 Questions of Interest" ++ "</h2>",
        "          <ul class=\x27todo-list\x27>"]
    ++ (summary.task_list.map (fun task =>
         ["            <li>",
          "              <span class=\x27todo-question\x27>" ++ htmlEscape task.question ++ "</span>",
          "              <span class=\x27todo-reason\x27>" ++ htmlEscape task.reason ++ "</span>",
          "            </li>"])).flatten
    ++ ["          </ul>",
        "        </section>",
        "        <section class=\x27section-card\x27 id=\x27findings\x27>",
        "          <h2>" ++ i18n b "💡 逐项解答" "💡 Detailed Findings" ++ "</h2>"]
    ++ (summary.findings.map (fun finding =>
         ["          <div class=\x27finding\x27>",
          "            <h3>" ++ htmlEscape finding.task.question ++ "</h3>",
          "            <p>" ++ replaceNl (htmlEscape finding.answer) ++ "</p>",
          "            <p class=\x27confidence\x27>" ++ i18n b "信心指数" "Confidence" ++ ": "
             ++ fmtFixed 2 finding.confidence ++ "</p>",
          "          </div>"])).flatten
    ++ ["        </section>",
        "        <section class=\x27section-card\x27 id=\x27overview\x27>",
        "          <h2>" ++ i18n b "📝 综合总结" "📝 Overall Summary" ++ "</h2>",
        "          <p>" ++ replaceNl (htmlEscape summary.overview) ++ "</p>",
        "        </section>",
        "      </main>",
        "      <footer class=\x27site-footer\x27>"
          ++ i18n b "由 CI-LLM4APR 自动生成" "Generated by the CI-LLM4APR pipeline" ++ "</footer>",
        "    </div>",
        "  </div>",
        languageScript b,
        "</body>",
        "</html>"]
  joinLines pageLines

/-! ## Persisted store and manifest (`static_site.py` data layer) -/

/-- `PaperCandidate.to_dict()`. -/
structure PaperDict where
  topic_name : String
  arxiv_id : String
  title : String
  abstract : String
  authors : List String
  categories : List String
  published : Option String
  updated : Option String
  arxiv_url : String
  pdf_url : Option String
  affiliations : List String
  comment : Option String
deriving Repr, DecidableEq

/-- `PaperCandidate.to_dict` (`isoformat()` is the identity on our ISO-string
model of datetimes). -/
def PaperCandidate.toDict (p : PaperCandidate) : PaperDict :=
  ⟨p.topic.name, p.arxiv_id, p.title, p.abstract, p.authors, p.categories,
   p.published, p.updated, p.arxiv_url, p.pdf_url, p.affiliations, p.comment⟩

/-- `ScoredPaper.to_dict()`. -/
structure ScoreDetailsDict where
  arxiv_id : String
  title : String
  total_score : ℚ
  scores : List DimensionScore
deriving Repr, DecidableEq

/-- `ScoredPaper.to_dict`. -/
def ScoredPaper.toDict (sp : ScoredPaper) : ScoreDetailsDict :=
  ⟨sp.paper.arxiv_id, sp.paper.title, sp.total_score, sp.scores⟩

/-- `PaperSummary.to_dict()` (`markdown` is not serialized). -/
structure SummaryDict where
  paper : PaperDict
  topic : TopicCfg
  core_summary : Option CoreSummary
  task_list : List TaskItem
  findings : List TaskFinding
  overview : String
  brief_summary : String
  score_details : ScoreDetailsDict
deriving Repr, DecidableEq

/-- `PaperSummary.to_dict`. -/
def PaperSummary.toDict (s : PaperSummary) : SummaryDict :=
  ⟨s.paper.toDict, ⟨s.topic.name, s.topic.label⟩, s.core_summary,
   s.task_list, s.findings, s.overview, s.brief_summary, s.score_details.toDict⟩

/-- One value of the Paper Store: the serialized summary plus the ingestion
metadata stamped by `build` (`paper_data["batch_id"]`,
`paper_data["indexed_at"]`). -/
structure StoredPaper where
  data : SummaryDict
  batch_id : String
  indexed_at : String
deriving Repr, DecidableEq

/-- `manifest["statistics"]`. -/
structure Statistics where
  total_papers : ℤ
  total_batches : ℤ
deriving Repr, DecidableEq

/-- One entry of `manifest["batches"]`. -/
structure BatchEntry where
  id : String
  generated : String
  paper_count : ℤ
  topics : List String
deriving Repr, DecidableEq

/-- One entry of the manifest's lightweight paper index
(`manifest["papers"][arxiv_id]`). -/
structure IndexEntry where
  topic : String
  batch : String
  title : String
  published : String
  score : ℚ
deriving Repr, DecidableEq

/-- The manifest document.  `generated` and `topicsLegacy` are the legacy
fields added by `_save_manifest` (absent — `none`/`[]` — until a save). -/
structure Manifest where
  version : String
  base_url : String
  last_updated : Option String
  statistics : Statistics
  batches : List BatchEntry
  papers : List (String × IndexEntry)
  generated : Option String
  topicsLegacy : List (String × List String)
deriving Repr, DecidableEq

/-- `_create_empty_manifest`. -/
def createEmptyManifest (base_url : String) : Manifest :=
  ⟨"2.0", base_url, none, ⟨0, 0⟩, [], [], none, []⟩

/-- Python dict assignment `d[k] = v` on an insertion-ordered mapping:
update in place if the key exists, else append. -/
def assocSet {α : Type} (l : List (String × α)) (k : String) (v : α) :
    List (String × α) :=
  if (l.lookup k).isSome then l.map (fun p => if p.1 = k then (k, v) else p)
  else l ++ [(k, v)]

/-- `defaultdict(list)` grouping: append `v` to the group of `k`, creating
the group at the end on first appearance. -/
def addToGroup {α : Type} (groups : List (String × List α)) (k : String) (v : α) :
    List (String × List α) :=
  if (groups.lookup k).isSome then
    groups.map (fun p => if p.1 = k then (p.1, p.2 ++ [v]) else p)
  else groups ++ [(k, [v])]

/-- `list(set(xs))` — duplicate-free; Python's enumeration order is
unspecified, the model keeps first occurrences; theorems use membership
only. -/
def pySetOfList (l : List String) : List String := l.dedup

/-- `list(set(a) | set(c))`. -/
def pySetUnion (a c : List String) : List String := (a ++ c).dedup

/-- All `datetime.utcnow()` readings of one build, passed explicitly:
`iso` is `isoformat()`, `year`/`week` are `isocalendar()[0:2]`, `ymd` is
`strftime("%Y-%m-%d")`. -/
structure Clock where
  iso : String
  year : ℕ
  week : ℕ
  ymd : String
deriving Repr, DecidableEq

/-- Outcome of reading one JSON document from disk: the file is absent, it
cannot be read or parsed (`json.JSONDecodeError`, `IOError`), or it yields a
value. -/
inductive LoadResult (α : Type) where
  | absent
  | invalid
  | ok (value : α)
deriving Repr, DecidableEq

/-- `_load_existing_data`: an absent or unparsable manifest degrades to
`_create_empty_manifest()`; an absent or unparsable store degrades to `{}`.
The third component is the list of log lines this function prints — the
source prints nothing in any branch. -/
def loadExistingData (cfg : SiteCfg) (mRes : LoadResult Manifest)
    (pRes : LoadResult (List (String × StoredPaper))) :
    Manifest × List (String × StoredPaper) × List String :=
  (match mRes with
   | .ok m => m
   | _ => createEmptyManifest cfg.base_url,
   match pRes with
   | .ok ps => ps
   | _ => [],
   [])

/-- `float(self._format_score(summary.score_details))`: the one-decimal
rendering parsed back, i.e. the rounded value. -/
def parsedScore (sp : ScoredPaper) : ℚ :=
  ((roundHalfEven (formatScoreQ sp.scores * 10) : ℤ) : ℚ) / 10

/-- Update the first batch entry with the given id
(`next(b for b in batches if b["id"] == batch_id)` then in-place update). -/
def updateFirstBatch (batch_id : String) (n : ℤ) (topics : List String) :
    List BatchEntry → List BatchEntry
  | [] => []
  | bE :: bs =>
    if bE.id = batch_id then
      { bE with paper_count := bE.paper_count + n,
                topics := pySetUnion bE.topics topics } :: bs
    else bE :: updateFirstBatch batch_id n topics bs

/-- `_update_batch_info(batch_id, papers)`; `storeSize` is
`len(self._existing_papers)` at call time. -/
def updateBatchInfo (batch_id : String) (papers : List PaperSummary)
    (storeSize : ℕ) (now : Clock) (m : Manifest) : Manifest :=
  let topics := pySetOfList (papers.map (fun p => p.topic.name))
  let batches :=
    if m.batches.any (fun bE => bE.id = batch_id) then
      updateFirstBatch batch_id (papers.length : ℤ) topics m.batches
    else
      { id := batch_id, generated := now.iso,
        paper_count := (papers.length : ℤ), topics := topics } :: m.batches
  { m with
    batches := batches,
    statistics := { total_papers := (storeSize : ℤ),
                    total_batches := (batches.length : ℤ) },
    last_updated := some now.iso }

/-! ## Index-page renderers (`static_site.py` lines 282-1150) -/

/-- `_render_index_with_archives(index_entries, total_papers, total_batches,
current_batch_id)` — the main index page, rendering from stored paper data
(`paper_data` dicts).  In this typed model the `.get(..., default)` fallbacks
of the source (`"Untitled"`, `"unknown"`, `{}`) are unreachable because every
stored record carries all keys `to_dict` writes. -/
def renderIndexWithArchives (b : Builder) (now : Clock)
    (index_entries : List (String × List StoredPaper))
    (total_papers : ℤ) (total_batches : ℕ) (current_batch_id : String) : String :=
  let html_lang := htmlLang b.language
  let update_time := now.ymd
  let batch_paper_count := (index_entries.map (fun e => e.2.length)).sum
  let style_block := indexStyleBlock
  let sidebar_nav := index_entries.map (fun e =>
    let topic_label := match e.2 with
      | [] => e.1
      | p :: _ => p.data.topic.label
    "<li><a href=\x27#" ++ e.1 ++ "\x27>" ++ htmlEscape topic_label ++ "</a></li>")
  let html_parts : List String :=
    ["<!DOCTYPE html>",
     "<html lang=\x27" ++ html_lang ++ "\x27>",
     "<head>",
     "  <meta charset=\x27utf-8\x27>",
     "  <meta name=\x27viewport\x27 content=\x27width=device-width, initial-scale=1\x27>",
     "  <title>" ++ htmlEscape "CI-LLM4APR" ++ "</title>",
     "  <style>" ++ style_block ++ "</style>",
     "</head>",
     "<body data-lang=\x27" ++ b.language ++ "\x27>",
     "  <div class=\x27page\x27>",
     "    <aside class=\x27sidebar\x27>",
     "      <div class=\x27sidebar-header\x27>",
     "        <h1>" ++ i18n b "CI-LLM4APR" "CI-LLM4APR" ++ "</h1>",
     "      </div>",
     "      <div class=\x27sidebar-stats\x27>",
     "        <h3>" ++ i18n b "统计信息" "Statistics" ++ "</h3>",
     "        <div class=\x27sidebar-stat-item\x27>",
     "          <span class=\x27sidebar-stat-icon\x27>📄</span>",
     "          <span class=\x27sidebar-stat-label\x27>" ++ i18n b "总论文数" "Total Papers" ++ "</span>",
     "          <span class=\x27sidebar-stat-value\x27>" ++ Int.repr total_papers ++ "</span>",
     "        </div>",
     "        <div class=\x27sidebar-stat-item\x27>",
     "          <span class=\x27sidebar-stat-icon\x27>📦</span>",
     "          <span class=\x27sidebar-stat-label\x27>" ++ i18n b "历史批次" "Batches" ++ "</span>",
     "          <span class=\x27sidebar-stat-value\x27>" ++ Nat.repr total_batches ++ "</span>",
     "        </div>",
     "        <div class=\x27sidebar-stat-item\x27>",
     "          <span class=\x27sidebar-stat-icon\x27>🕒</span>",
     "          <span class=\x27sidebar-stat-label\x27>" ++ i18n b "更新" "Updated" ++ "</span>",
     "          <span class=\x27sidebar-stat-value\x27>" ++ update_time ++ "</span>",
     "        </div>",
     "      </div>",
     "      <nav class=\x27sidebar-nav\x27>",
     "        <h3>" ++ i18n b "专题导航" "Topics" ++ "</h3>",
     "        <ul>",
     joinLines (sidebar_nav.map (fun item => "          " ++ item)),
     "        </ul>",
     "      </nav>",
     "      <div class=\x27sidebar-archive-link\x27>",
     "        <a href=\x27archives/\x27>" ++ i18n b "📚 查看历史归档" "📚 View Archives" ++ "</a>",
     "      </div>",
     "    </aside>",
     "    <div class=\x27main-content\x27>",
     "      <header class=\x27top-bar\x27>",
     "        <div class=\x27top-bar-title\x27>",
     "          <h1>" ++ i18n b "每周精选科技论文" "Weekly Research Highlights" ++ "</h1>",
     "          <p>"
       ++ i18n b ("本周批次: " ++ current_batch_id ++ " (" ++ Nat.repr batch_paper_count ++ " 篇)")
            ("Current Batch: " ++ current_batch_id ++ " (" ++ Nat.repr batch_paper_count ++ " papers)")
       ++ "</p>",
     "        </div>",
     "        " ++ langToggleButton,
     "      </header>",
     "      <main class=\x27container\x27>"]
    ++ (if index_entries = [] ∨ batch_paper_count = 0 then
         ["        <p>" ++ i18n b "本周暂无新论文。" "No new papers this week." ++ "</p>",
          "        <p><a href=\x27archives/\x27>" ++ i18n b "查看历史归档" "View archives" ++ "</a></p>"]
        else
         (index_entries.map (fun e =>
           let topic_name := e.1
           let topic_papers := e.2
           let topic_label := match topic_papers with
             | [] => topic_name
             | p :: _ => p.data.topic.label
           ["        <section class=\x27topic-section\x27 id=\x27" ++ topic_name ++ "\x27>",
            "          <div class=\x27topic-header\x27>",
            "            <h2 class=\x27topic-title\x27>" ++ htmlEscape topic_label ++ "</h2>",
            "            <span class=\x27topic-count\x27>" ++ Nat.repr topic_papers.length ++ " "
              ++ i18n b "篇" "papers" ++ "</span>",
            "          </div>",
            "          <ul class=\x27paper-list\x27>"]
           ++ (topic_papers.map (fun pd =>
                let paper_info := pd.data.paper
                let arxiv_id := paper_info.arxiv_id
                let title := htmlEscape paper_info.title
                let score := pd.data.score_details.total_score
                let url := "topics/" ++ topic_name ++ "/" ++ arxiv_id ++ ".html"
                let author_text :=
                  if paper_info.authors ≠ [] then htmlEscape (authorPreview paper_info.authors) else ""
                ["            <li class=\x27paper-item\x27>",
                 "              <a href=\x27" ++ htmlEscape url ++ "\x27>" ++ title ++ "</a>",
                 "              <div class=\x27paper-meta\x27>",
                 "                <span class=\x27paper-meta-item\x27>📊 " ++ i18n b "相关度" "Score"
                   ++ ": " ++ fmtFixed 1 score ++ "</span>"]
                ++ (if author_text ≠ "" then
                     ["                <span class=\x27paper-meta-item\x27>👤 " ++ author_text ++ "</span>"]
                    else [])
                ++ (match paper_info.published with
                    | some d =>
                      if d ≠ "" then
                        ["                <span class=\x27paper-meta-item\x27>📅 " ++ d.take 10 ++ "</span>"]
                      else []
                    | none => [])
                ++ ["              </div>",
                    "            </li>"])).flatten
           ++ ["          </ul>",
               "        </section>"])).flatten)
    ++ ["      </main>",
        "      <footer class=\x27site-footer\x27>"
          ++ i18n b "由 CI-LLM4APR 自动生成" "Generated by the CI-LLM4APR pipeline" ++ "</footer>",
        "    </div>",
        "  </div>",
        languageScript b,
        "</body>",
        "</html>"]
  joinLines html_parts

/-- `_render_main_index(output_dir, current_batch_id)`: select the stored
papers of the current batch, group them by topic in insertion order, and
render the index page with the manifest's statistics. -/
def renderMainIndex (b : Builder) (now : Clock)
    (papers : List (String × StoredPaper)) (manifest : Manifest)
    (current_batch_id : String) : String :=
  let current_batch_papers := (papers.filter (fun p => p.2.batch_id = current_batch_id)).map (·.2)
  let topic_groups := current_batch_papers.foldl (fun gs pd => addToGroup gs pd.data.topic.name pd) []
  renderIndexWithArchives b now topic_groups
    manifest.statistics.total_papers manifest.batches.length current_batch_id

/-- `_render_batch_index_html(batch_id, papers)` — archive page of one batch,
rendered from the freshly accepted `PaperSummary` records. -/
def renderBatchIndexHtml (b : Builder) (batch_id : String)
    (papers : List PaperSummary) : String :=
  let html_lang := htmlLang b.language
  let style_block := indexStyleBlock
  let topic_groups := papers.foldl (fun gs p => addToGroup gs p.topic.name p) []
  let html_parts : List String :=
    ["<!DOCTYPE html>",
     "<html lang=\x27" ++ html_lang ++ "\x27>",
     "<head>",
     "  <meta charset=\x27utf-8\x27>",
     "  <meta name=\x27viewport\x27 content=\x27width=device-width, initial-scale=1\x27>",
     "  <title>" ++ htmlEscape ("Archive - " ++ batch_id) ++ "</title>",
     "  <style>" ++ style_block ++ "</style>",
     "</head>",
     "<body data-lang=\x27" ++ b.language ++ "\x27>",
     "  <div class=\x27page\x27>",
     "    <aside class=\x27sidebar\x27>",
     "      <div class=\x27sidebar-header\x27>",
     "        <a href=\x27../../\x27 style=\x27text-decoration:none;color:inherit;\x27><h1>"
       ++ i18n b "🏠 首页" "🏠 Home" ++ "</h1></a>",
     "      </div>",
     "      <div class=\x27sidebar-stats\x27>",
     "        <h3>" ++ i18n b "批次信息" "Batch Info" ++ "</h3>",
     "        <div class=\x27sidebar-stat-item\x27>",
     "          <span class=\x27sidebar-stat-label\x27>" ++ i18n b "批次" "Batch" ++ "</span>",
     "          <span class=\x27sidebar-stat-value\x27>" ++ batch_id ++ "</span>",
     "        </div>",
     "        <div class=\x27sidebar-stat-item\x27>",
     "          <span class=\x27sidebar-stat-label\x27>" ++ i18n b "论文数" "Papers" ++ "</span>",
     "          <span class=\x27sidebar-stat-value\x27>" ++ Nat.repr papers.length ++ "</span>",
     "        </div>",
     "      </div>",
     "      <div class=\x27sidebar-archive-link\x27>",
     "        <a href=\x27../\x27>" ++ i18n b "📚 返回归档列表" "📚 Back to Archives" ++ "</a>",
     "      </div>",
     "    </aside>",
     "    <div class=\x27main-content\x27>",
     "      <header class=\x27top-bar\x27>",
     "        <div class=\x27top-bar-title\x27>",
     "          <h1>" ++ i18n b ("归档: " ++ batch_id) ("Archive: " ++ batch_id) ++ "</h1>",
     "          <p>" ++ i18n b ("共 " ++ Nat.repr papers.length ++ " 篇论文")
       (Nat.repr papers.length ++ " papers in this batch") ++ "</p>",
     "        </div>",
     "        " ++ langToggleButton,
     "      </header>",
     "      <main class=\x27container\x27>"]
    ++ (topic_groups.map (fun e =>
         let topic_name := e.1
         let topic_papers := e.2
         let topic_label := match topic_papers with
           | [] => topic_name
           | p :: _ => p.topic.label
         ["        <section class=\x27topic-section\x27 id=\x27" ++ topic_name ++ "\x27>",
          "          <div class=\x27topic-header\x27>",
          "            <h2 class=\x27topic-title\x27>" ++ htmlEscape topic_label ++ "</h2>",
          "            <span class=\x27topic-count\x27>" ++ Nat.repr topic_papers.length ++ " "
            ++ i18n b "篇" "papers" ++ "</span>",
          "          </div>",
          "          <ul class=\x27paper-list\x27>"]
         ++ (topic_papers.map (fun summary =>
              let url := "../../topics/" ++ topic_name ++ "/" ++ summary.paper.arxiv_id ++ ".html"
              let title := htmlEscape summary.paper.title
              let score := formatScore summary.score_details
              let author_text :=
                if summary.paper.authors ≠ [] then htmlEscape (authorPreview summary.paper.authors) else ""
              ["            <li class=\x27paper-item\x27>",
               "              <a href=\x27" ++ htmlEscape url ++ "\x27>" ++ title ++ "</a>",
               "              <div class=\x27paper-meta\x27>",
               "                <span class=\x27paper-meta-item\x27>📊 " ++ i18n b "相关度" "Score"
                 ++ ": " ++ score ++ "</span>"]
              ++ (if author_text ≠ "" then
                   ["                <span class=\x27paper-meta-item\x27>👤 " ++ author_text ++ "</span>"]
                  else [])
              ++ (match summary.paper.published with
                  | some d =>
                    ["                <span class=\x27paper-meta-item\x27>📅 " ++ strftimeYmd d ++ "</span>"]
                  | none => [])
              ++ ["              </div>",
                  "            </li>"])).flatten
         ++ ["          </ul>",
             "        </section>"])).flatten
    ++ ["      </main>",
        "      <footer class=\x27site-footer\x27>"
          ++ i18n b "由 CI-LLM4APR 自动生成" "Generated by the CI-LLM4APR pipeline" ++ "</footer>",
        "    </div>",
        "  </div>",
        languageScript b,
        "</body>",
        "</html>"]
  joinLines html_parts

/-- `_render_archive_listing_html(batches)` — the archive listing page. -/
def renderArchiveListingHtml (b : Builder) (batches : List BatchEntry) : String :=
  let html_lang := htmlLang b.language
  let style_block := indexStyleBlock
  let html_parts : List String :=
    ["<!DOCTYPE html>",
     "<html lang=\x27" ++ html_lang ++ "\x27>",
     "<head>",
     "  <meta charset=\x27utf-8\x27>",
     "  <meta name=\x27viewport\x27 content=\x27width=device-width, initial-scale=1\x27>",
     "  <title>" ++ htmlEscape "Archives - CI-LLM4APR" ++ "</title>",
     "  <style>" ++ style_block ++ "</style>",
     "</head>",
     "<body data-lang=\x27" ++ b.language ++ "\x27>",
     "  <div class=\x27page\x27>",
     "    <aside class=\x27sidebar\x27>",
     "      <div class=\x27sidebar-header\x27>",
     "        <a href=\x27../\x27 style=\x27text-decoration:none;color:inherit;\x27><h1>"
       ++ i18n b "🏠 首页" "🏠 Home" ++ "</h1></a>",
     "      </div>",
     "      <div class=\x27sidebar-stats\x27>",
     "        <h3>" ++ i18n b "归档统计" "Archive Stats" ++ "</h3>",
     "        <div class=\x27sidebar-stat-item\x27>",
     "          <span class=\x27sidebar-stat-label\x27>" ++ i18n b "总批次" "Total Batches" ++ "</span>",
     "          <span class=\x27sidebar-stat-value\x27>" ++ Nat.repr batches.length ++ "</span>",
     "        </div>",
     "      </div>",
     "    </aside>",
     "    <div class=\x27main-content\x27>",
     "      <header class=\x27top-bar\x27>",
     "        <div class=\x27top-bar-title\x27>",
     "          <h1>" ++ i18n b "📚 历史归档" "📚 Archives" ++ "</h1>",
     "          <p>" ++ i18n b "按周浏览历史论文" "Browse papers by week" ++ "</p>",
     "        </div>",
     "        " ++ langToggleButton,
     "      </header>",
     "      <main class=\x27container\x27>"]
    ++ (if batches = [] then
         ["        <p>" ++ i18n b "暂无历史归档。" "No archives yet." ++ "</p>"]
        else
         ["        <ul class=\x27paper-list\x27>"]
         ++ (batches.map (fun batch =>
              let batch_id := batch.id
              let generated := batch.generated.take 10
              let topics_str := if batch.topics ≠ [] then ", ".intercalate batch.topics else "N/A"
              ["          <li class=\x27paper-item\x27>",
               "            <a href=\x27" ++ batch_id ++ "/\x27>"
                 ++ i18n b ("批次 " ++ batch_id) ("Batch " ++ batch_id) ++ "</a>",
               "            <div class=\x27paper-meta\x27>",
               "              <span class=\x27paper-meta-item\x27>📄 " ++ Int.repr batch.paper_count
                 ++ " " ++ i18n b "篇论文" "papers" ++ "</span>",
               "              <span class=\x27paper-meta-item\x27>📅 " ++ generated ++ "</span>",
               "              <span class=\x27paper-meta-item\x27>🏷️ " ++ htmlEscape topics_str ++ "</span>",
               "            </div>",
               "          </li>"])).flatten
         ++ ["        </ul>"])
    ++ ["      </main>",
        "      <footer class=\x27site-footer\x27>"
          ++ i18n b "由 CI-LLM4APR 自动生成" "Generated by the CI-LLM4APR pipeline" ++ "</footer>",
        "    </div>",
        "  </div>",
        languageScript b,
        "</body>",
        "</html>"]
  joinLines html_parts

/-! ## The build orchestrator (`StaticSiteBuilder.build`) -/

/-- Per-record state of the merge loop of `build` (source lines 116-144). -/
structure MergeState where
  papers : List (String × StoredPaper)
  manifestPapers : List (String × IndexEntry)
  newPapers : List PaperSummary
  topicGroups : List (String × List PaperSummary)
  logs : List String
deriving Repr, DecidableEq

/-- One iteration of `for summary in summaries` in `build`: skip (with an
info log, no mutation) when the identifier is already stored, otherwise stamp
and insert the record and its index entry. -/
def mergeStep (batch_id : String) (now : Clock) (st : MergeState)
    (summary : PaperSummary) : MergeState :=
  let aid := summary.paper.arxiv_id
  if (st.papers.lookup aid).isSome then
    { st with logs := st.logs ++ ["[INFO] Paper " ++ aid ++ " already exists, skipping..."] }
  else
    let paper_data : StoredPaper := ⟨summary.toDict, batch_id, now.iso⟩
    let entry : IndexEntry :=
      ⟨summary.topic.name, batch_id, summary.paper.title,
       (match summary.paper.published with
        | some d => strftimeYmd d
        | none => ""),
       parsedScore summary.score_details⟩
    { papers := st.papers ++ [(aid, paper_data)],
      manifestPapers := assocSet st.manifestPapers aid entry,
      newPapers := st.newPapers ++ [summary],
      topicGroups := addToGroup st.topicGroups summary.topic.name summary,
      logs := st.logs }

/-- `archives/<batch-id>/batch.json` content. -/
structure BatchMeta where
  id : String
  generated : String
  papers : List String
deriving Repr, DecidableEq

/-- The legacy `topics` mapping built by `_save_manifest`:
`topic -> [arxiv ids]` over the manifest's paper index. -/
def buildTopicsMapping (papers : List (String × IndexEntry)) :
    List (String × List String) :=
  papers.foldl (fun gs p => addToGroup gs p.2.topic p.1) []

/-- The in-place normalization `_save_manifest` applies before writing:
refresh `base_url`, set the legacy `generated` timestamp
(`os.environ.get("PIPELINE_RUN_AT") or utcnow().isoformat()`) and the legacy
`topics` mapping. -/
def saveManifestNormalize (cfg : SiteCfg) (envRunAt : Option String)
    (now : Clock) (m : Manifest) : Manifest :=
  { m with
    base_url := cfg.base_url,
    generated := some (match envRunAt with
      | some v => if v ≠ "" then v else now.iso
      | none => now.iso),
    topicsLegacy := buildTopicsMapping m.papers }

/-- Everything `build` leaves behind: the persisted documents, the accepted
records, the written pages, the log lines, and the returned index path.
Directory creation (`mkdir`, idempotent, never deleting) has no data
content and is not represented. -/
structure BuildResult where
  papers : List (String × StoredPaper)
  manifest : Manifest
  newPapers : List PaperSummary
  topicGroups : List (String × List PaperSummary)
  batchId : String
  detailPages : List (String × String)
  batchJson : Option (String × BatchMeta)
  batchIndexPage : Option (String × String)
  indexPage : String × String
  archiveIndexPage : String × String
  logs : List String
  ret : String
deriving Repr, DecidableEq

/-- `StaticSiteBuilder.build(summaries)` — loads (or degrades) the persisted
documents, deduplicates and merges the incoming summaries, writes detail
pages for accepted records, updates batch bookkeeping only when something was
accepted, always re-renders the two index pages, and persists the store and
the normalized manifest. -/
def build (b : Builder) (now : Clock) (envRunAt : Option String)
    (mRes : LoadResult Manifest) (pRes : LoadResult (List (String × StoredPaper)))
    (summaries : List PaperSummary) : BuildResult :=
  let loaded := loadExistingData b.site_config mRes pRes
  let manifest0 := loaded.1
  let papers0 := loaded.2.1
  let loadLogs := loaded.2.2
  let batch_id := getBatchId now.year now.week
  let st := summaries.foldl (mergeStep batch_id now)
    ⟨papers0, manifest0.papers, [], [], loadLogs⟩
  let detailPages := (st.topicGroups.map (fun g =>
    g.2.map (fun s =>
      ("topics/" ++ g.1 ++ "/" ++ s.paper.arxiv_id ++ ".html", renderPaper b s)))).flatten
  let manifest1 := { manifest0 with papers := st.manifestPapers }
  let withBatch :=
    if st.newPapers ≠ [] then
      (updateBatchInfo batch_id st.newPapers st.papers.length now manifest1,
       some ("archives/" ++ batch_id ++ "/batch.json",
             (⟨batch_id, now.iso, st.newPapers.map (fun s => s.paper.arxiv_id)⟩ : BatchMeta)),
       some ("archives/" ++ batch_id ++ "/index.html",
             renderBatchIndexHtml b batch_id st.newPapers),
       st.logs ++ ["[INFO] Added " ++ Nat.repr st.newPapers.length
         ++ " new papers to batch " ++ batch_id])
    else
      (manifest1, none, none, st.logs ++ ["[INFO] No new papers to add"])
  let manifest2 := withBatch.1
  let indexPage := ("index.html", renderMainIndex b now st.papers manifest2 batch_id)
  let archiveIndexPage := ("archives/index.html", renderArchiveListingHtml b manifest2.batches)
  let manifest3 := saveManifestNormalize b.site_config envRunAt now manifest2
  { papers := st.papers,
    manifest := manifest3,
    newPapers := st.newPapers,
    topicGroups := st.topicGroups,
    batchId := batch_id,
    detailPages := detailPages,
    batchJson := withBatch.2.1,
    batchIndexPage := withBatch.2.2.1,
    indexPage := indexPage,
    archiveIndexPage := archiveIndexPage,
    logs := withBatch.2.2.2,
    ret := b.site_config.output_dir ++ "/index.html" }

/-! ## GitHub markdown-table committer (`src/publisher/github_committer.py`).
Strings are modelled as `List Char` here so that Mathlib's `List.splitOn`
lemmas apply.  The GitHub API is external to the repository: branch/file
state is a `RepoState` parameter and API effects are returned as a list of
actions; the exception paths of failed API calls are outside the model. -/

/-- `GitHubConfig` of `github_committer.py`. -/
structure GitHubCfg where
  token : List Char
  repo_name : List Char
  branch : List Char
  file_path : List Char
deriving Repr, DecidableEq

/-- `PaperMetadata`. -/
structure PaperMetadata where
  title : List Char
  published_date : List Char
  venue : List Char
  arxiv_id : List Char
  arxiv_url : List Char
deriving Repr, DecidableEq

/-- `PaperMetadata.to_markdown_row`. -/
def toMarkdownRow (p : PaperMetadata) : List Char :=
  let cleaned_title := pyCleanWs p.title
  let cleaned_venue := pyCleanWs p.venue
  let title_with_link :=
    if p.arxiv_url ≠ [] then
      ("[").data ++ cleaned_title ++ ("](").data ++ p.arxiv_url ++ (")").data
    else cleaned_title
  ("| ").data ++ title_with_link ++ (" | ").data ++ p.published_date
    ++ (" | ").data ++ cleaned_venue ++ (" |").data

/-- The `table_header` constant of `_build_markdown_table` (note the embedded
newline: it is two markdown lines). -/
def tableHeader : List Char :=
  ("| Title | Published Date | Venue/Conference |\n| --- | --- | --- |").data

/-- The title(s) (zero or one) that one line of existing content contributes
to the `existing_titles` set (`_build_markdown_table`, lines 121-132). -/
def titleOfLine (line : List Char) : List (List Char) :=
  if (("| [").data).isPrefixOf line ∨
      ((("| ").data).isPrefixOf line ∧ ¬ (("| Title").data).isPrefixOf line ∧
        ¬ (("| ---").data).isPrefixOf line) then
    match line.splitOn '|' with
    | _ :: title_raw :: _ =>
      let title_part := pyStrip title_raw
      if (("[").data).isPrefixOf title_part then
        match title_part.splitOn ']' with
        | seg :: _ => [seg.drop 1]
        | [] => []
      else [title_part]
    | _ => []
  else []

/-- The `existing_titles` set collected from existing content (modelled as a
list, membership only). -/
def extractExistingTitles (existing : List Char) : List (List Char) :=
  if existing ≠ [] then ((existing.splitOn '\n').map titleOfLine).flatten
  else []

/-- The insertion loop of `_build_markdown_table` (lines 147-162): insert the
new rows after the first `| ---` separator line, appending them at the end
when no separator line exists. -/
def insertRowsAfterSep (rows : List (List Char)) :
    List (List Char) → List (List Char)
  | [] => rows
  | l :: ls =>
    if (("| ---").data).isPrefixOf l ∧ containsSub (("---").data) l then
      l :: (rows ++ ls)
    else l :: insertRowsAfterSep rows ls

/-- `_build_markdown_table(papers, existing_content)`; `nowTs` is the
`strftime("%Y-%m-%d %H:%M UTC")` reading used for a fresh table. -/
def buildMarkdownTable (nowTs : List Char) (papers : List PaperMetadata)
    (existing : List Char) : List Char :=
  let existing_titles := extractExistingTitles existing
  let new_rows := (papers.filter (fun p => p.title ∉ existing_titles)).map toMarkdownRow
  if new_rows = [] then existing
  else if containsSub tableHeader existing ∨ containsSub (("| Title |").data) existing then
    ['\n'].intercalate (insertRowsAfterSep new_rows (existing.splitOn '\n'))
  else
    let content_lines :=
      [("# Paper Updates").data, [],
       ("*Last updated: ").data ++ nowTs ++ ("*").data, [],
       tableHeader] ++ new_rows ++
      (if existing ≠ [] then [[], ("---").data, [], existing] else [])
    ['\n'].intercalate content_lines

/-- The repository state `commit_papers` interacts with: whether the target
branch exists and the target file's content on it (`none` if absent). -/
structure RepoState where
  branchExists : Bool
  fileContent : Option (List Char)
deriving Repr, DecidableEq

/-- The API effects `commit_papers` can perform. -/
inductive CommitAction where
  | createBranch
  | updateFile (path : List Char) (content : List Char)
  | createFile (path : List Char) (content : List Char)
deriving Repr, DecidableEq

/-- `_get_existing_content`: the file's content, or `""` if it does not
exist. -/
def getExistingContent (repo : RepoState) : List Char :=
  repo.fileContent.getD []

/-- `commit_papers(papers)` on the successful API paths: the returned flag
and the sequence of performed API effects. -/
def commitPapers (cfg : GitHubCfg) (nowTs : List Char)
    (papers : List PaperMetadata) (repo : RepoState) : Bool × List CommitAction :=
  if papers = [] then (true, [])
  else
    let branchActions : List CommitAction :=
      if repo.branchExists then [] else [.createBranch]
    let existing := getExistingContent repo
    let new_content := buildMarkdownTable nowTs papers existing
    if new_content = existing then (true, branchActions)
    else
      match repo.fileContent with
      | some _ => (true, branchActions ++ [.updateFile cfg.file_path new_content])
      | none => (true, branchActions ++ [.createFile cfg.file_path new_content])

/-! ## Specification-side comparison definitions and concrete fixtures -/

/-- The spec's "deduplicated set" of incoming summaries (stated from the
spec's words, for comparison with `build`): drop every record whose
identifier is already stored or already occurred earlier in the sequence. -/
def freshFirst (keys : List String) : List PaperSummary → List PaperSummary
  | [] => []
  | s :: ss =>
    if s.paper.arxiv_id ∈ keys then freshFirst keys ss
    else s :: freshFirst (keys ++ [s.paper.arxiv_id]) ss

/-- The paper count of the batch entry the code reads and updates: the first
entry of the batch list with the given id. -/
def batchCount (batches : List BatchEntry) (id : String) : Option ℤ :=
  (batches.find? (fun bE => bE.id = id)).map (fun bE => bE.paper_count)

/-- Cleanliness of one `PaperMetadata` record for the amended C10: the title
and venue are already whitespace-normalized, the title is free of `]` and
`|`, the record is rendered as a linked row (non-empty URL), and no field
smuggles a `|` or newline into the row in a way that breaks the
title-extraction parse. -/
def cleanPaper (p : PaperMetadata) : Prop :=
  pyCleanWs p.title = p.title ∧ '|' ∉ p.title ∧ ']' ∉ p.title ∧ '\n' ∉ p.title ∧
  p.arxiv_url ≠ [] ∧ '|' ∉ p.arxiv_url ∧ '\n' ∉ p.arxiv_url ∧
  '\n' ∉ p.published_date ∧
  pyCleanWs p.venue = p.venue ∧ '\n' ∉ p.venue

/-- A concrete paper record used by witnesses. -/
def demoPaper : PaperCandidate :=
  ⟨⟨"nlp", "NLP"⟩, "2401.00001", "A Demo Paper", "abstract", ["Ada", "Bob"], ["cs.SE"],
    some "2024-01-02T03:04:05", some "2024-01-02T03:04:05",
    "https://arxiv.org/abs/2401.00001", none, [], none⟩

/-- A concrete builder configuration for witnesses/counterexamples. -/
def demoBuilder : Builder := ⟨⟨"site", "https://example.github.io/radar"⟩, "zh-CN"⟩

/-- A concrete clock reading. -/
def demoClock : Clock := ⟨"2024-09-12T10:00:00", 2024, 37, "2024-09-12"⟩

/-- A loaded manifest whose statistics are stale relative to an empty store
(e.g. the store file was corrupted and degraded to `{}` while the manifest
survived). -/
def staleManifest : Manifest :=
  ⟨"2.0", "https://example.github.io/radar", none, ⟨5, 2⟩,
   [⟨"2024-W36", "2024-09-05T10:00:00", 5, ["nlp"]⟩], [], none, []⟩

/-- A concrete summary for witnesses. -/
def demoSummary : PaperSummary :=
  ⟨demoPaper, ⟨"nlp", "NLP"⟩, none, [], [], "overview",
   ⟨demoPaper, [⟨"novelty", 2, 1⟩], 2⟩, "", ""⟩

/-- A summary whose title carries raw markup, for the escaping claim. -/
def evilSummary : PaperSummary :=
  let evilPaper : PaperCandidate :=
    ⟨⟨"nlp", "NLP"⟩, "2401.00009", "<script>alert(1)</script>", "", [], [],
     none, none, "https://arxiv.org/abs/2401.00009", none, [], none⟩
  ⟨evilPaper, ⟨"nlp", "NLP"⟩, none, [], [], "",
   ⟨evilPaper, [], 0⟩, "", ""⟩

/-- A paper metadata record whose title is not whitespace-normalized (double
space), which defeats the committer's title-based deduplication. -/
def dirtyMdPaper : PaperMetadata :=
  ⟨("a  b").data, ("2024-01-01").data, ("v").data, [], []⟩

/-- A concrete committer timestamp. -/
def mdTs : List Char := ("2024-01-01 00:00 UTC").data

/-- A well-formed paper metadata record: whitespace-normalized title and
venue, no `|`/`]`/newline in the parsed fields, non-empty link URL. -/
def cleanMdPaper : PaperMetadata :=
  ⟨("A Clean Paper").data, ("2024-01-01").data, ("ICSE").data,
   ("2401.00001").data, ("https://arxiv.org/abs/2401.00001").data⟩

/-- The state of `build`'s merge loop after processing all summaries
(an abbreviation of the fold inside `build`, for stating lemmas). -/
def buildMergeState (b : Builder) (now : Clock) (mRes : LoadResult Manifest)
    (pRes : LoadResult (List (String × StoredPaper)))
    (summaries : List PaperSummary) : MergeState :=
  summaries.foldl (mergeStep (getBatchId now.year now.week) now)
    ⟨(loadExistingData b.site_config mRes pRes).2.1,
     (loadExistingData b.site_config mRes pRes).1.papers, [], [],
     (loadExistingData b.site_config mRes pRes).2.2⟩

/-- The data content of a merge state (everything except the log lines),
used to state that the merge loop's data effects are log-independent. -/
def mergeCore (st : MergeState) :
    List (String × StoredPaper) × List (String × IndexEntry) ×
      List PaperSummary × List (String × List PaperSummary) :=
  (st.papers, st.manifestPapers, st.newPapers, st.topicGroups)

/-! ## Claims C4, C8, C9 -/

/-- C4. Score normalization: the effective denominator of `_format_score` is
never zero; when `Σ weight ≠ 0` the rendered score is the fixed-point
rendering of `100·Σ(weight·value)/Σ(weight)`; when `Σ weight = 0` the
denominator defaults to `1`; and in the two-dimension case the value is
`100·(w₁v₁+w₂v₂)/(w₁+w₂)`. -/
theorem score_normalization (sp : ScoredPaper) :
    totalWeightOr1 sp.scores ≠ 0 ∧
    (sumWeights sp.scores ≠ 0 →
      formatScore sp = fmtFixed 1 (100 * sumWV sp.scores / sumWeights sp.scores)) ∧
    (sumWeights sp.scores = 0 →
      formatScore sp = fmtFixed 1 (100 * sumWV sp.scores)) ∧
    (∀ n₁ w₁ v₁ n₂ w₂ v₂, w₁ + w₂ ≠ 0 →
      sp.scores = [⟨n₁, w₁, v₁⟩, ⟨n₂, w₂, v₂⟩] →
      formatScore sp = fmtFixed 1 (100 * (w₁ * v₁ + w₂ * v₂) / (w₁ + w₂))) := by
  refine ⟨?_, ?_, ?_, ?_⟩
  · unfold totalWeightOr1
    split
    · norm_num
    · assumption
  · intro h
    unfold formatScore
    congr 1
    unfold formatScoreQ totalWeightOr1
    rw [if_neg h]
    ring
  · intro h
    unfold formatScore
    congr 1
    unfold formatScoreQ totalWeightOr1
    rw [if_pos h]
    ring
  · intro n₁ w₁ v₁ n₂ w₂ v₂ hw hs
    unfold formatScore
    congr 1
    unfold formatScoreQ totalWeightOr1 sumWeights sumWV
    rw [hs]
    simp only [List.map_cons, List.map_nil, List.sum_cons, List.sum_nil]
    rw [if_neg (by rw [add_zero]; exact fun hc => hw (by linarith [hc]))]
    field_simp
    ring

/-- Witness for C4 at a concrete scored paper (`[(2,1),(3,1/2)]` ↦ `"70.0"`). -/
theorem score_normalization_witness :
    formatScore ⟨demoPaper, [⟨"novelty", 2, 1⟩, ⟨"rigor", 3, (1:ℚ)/2⟩], 0⟩ =
      fmtFixed 1 (100 * ((2:ℚ) * 1 + 3 * (1/2)) / (2 + 3)) ∧
    formatScore ⟨demoPaper, [⟨"novelty", 2, 1⟩, ⟨"rigor", 3, (1:ℚ)/2⟩], 0⟩ = "70.0" := by
  constructor
  · exact (score_normalization _).2.2.2 "novelty" 2 1 "rigor" 3 (1/2) (by norm_num) rfl
  · show fmtFixed 1 (formatScoreQ _) = _
    have h70 : formatScoreQ [⟨"novelty", 2, 1⟩, ⟨"rigor", 3, (1:ℚ)/2⟩] = 70 := by
      unfold formatScoreQ totalWeightOr1 sumWV sumWeights
      norm_num
    rw [h70]
    have hq : ((70:ℚ) * 10 ^ 1) = ((700 : ℤ) : ℚ) := by norm_num
    have hfl : roundHalfEven (((700:ℤ) : ℚ)) = 700 := by
      unfold roundHalfEven
      norm_num
    simp only [fmtFixed, hq, hfl]
    norm_num
    decide

/-- C8. The computed batch id is the ISO year, then `"-W"`, then the ISO week
zero-padded to two digits (a two-character suffix that parses back to the
week number). -/
theorem batch_id_format (y w : ℕ) (h1 : 1 ≤ w) (h2 : w ≤ 53) :
    ∃ p : String, getBatchId y w = Nat.repr y ++ "-W" ++ p ∧
      p.length = 2 ∧ parseNatDigits p.data = some w := by
  refine ⟨fmt02 w, rfl, ?_⟩
  have h : ∀ n, n < 54 → 1 ≤ n →
      (fmt02 n).length = 2 ∧ parseNatDigits (fmt02 n).data = some n := by decide
  exact h w (by omega) h1

/-- Witness for C8: the spec's own example week, `"2024-W37"`. -/
theorem batch_id_format_witness :
    getBatchId 2024 37 = "2024-W37" ∧
    ∃ p : String, getBatchId 2024 37 = Nat.repr 2024 ++ "-W" ++ p ∧
      p.length = 2 ∧ parseNatDigits p.data = some 37 :=
  ⟨by decide, batch_id_format 2024 37 (by norm_num) (by norm_num)⟩

/-- C9. `limit_items(items, None)` returns all items in order, and for a
non-negative limit `n` it returns exactly the first `min n (length items)`
items in order. -/
theorem limit_items_spec {α : Type} (items : List α) :
    limit_items items none = items ∧
    ∀ n : ℕ, limit_items items (some (n : ℤ)) = items.take n ∧
      (limit_items items (some (n : ℤ))).length = min n items.length := by
  refine ⟨rfl, fun n => ?_⟩
  have h : limit_items items (some (n : ℤ)) = items.take n := by
    simp only [limit_items]
    rw [if_pos (Int.ofNat_nonneg n)]
    simp
  exact ⟨h, by rw [h, List.length_take]⟩

/-! ## Build characterization lemmas -/

theorem build_papers_eq (b : Builder) (now : Clock) (env : Option String)
    (mRes : LoadResult Manifest) (pRes : LoadResult (List (String × StoredPaper)))
    (ss : List PaperSummary) :
    (build b now env mRes pRes ss).papers = (buildMergeState b now mRes pRes ss).papers := rfl

theorem build_newPapers_eq (b : Builder) (now : Clock) (env : Option String)
    (mRes : LoadResult Manifest) (pRes : LoadResult (List (String × StoredPaper)))
    (ss : List PaperSummary) :
    (build b now env mRes pRes ss).newPapers = (buildMergeState b now mRes pRes ss).newPapers := rfl

theorem build_manifest_eq (b : Builder) (now : Clock) (env : Option String)
    (mRes : LoadResult Manifest) (pRes : LoadResult (List (String × StoredPaper)))
    (ss : List PaperSummary) :
    (build b now env mRes pRes ss).manifest =
      saveManifestNormalize b.site_config env now
        (if (buildMergeState b now mRes pRes ss).newPapers = [] then
          { (loadExistingData b.site_config mRes pRes).1 with
              papers := (buildMergeState b now mRes pRes ss).manifestPapers }
        else
          updateBatchInfo (getBatchId now.year now.week)
            (buildMergeState b now mRes pRes ss).newPapers
            (buildMergeState b now mRes pRes ss).papers.length now
            { (loadExistingData b.site_config mRes pRes).1 with
                papers := (buildMergeState b now mRes pRes ss).manifestPapers }) := by
  by_cases h : (buildMergeState b now mRes pRes ss).newPapers = []
  · simp only [build, buildMergeState] at *
    simp [h]
  · simp only [build, buildMergeState] at *
    simp [h]

/-! ## Claims C6, C2, C3 -/

/-- C6 (amended).  Load degradation: an absent or unreadable/unparsable
manifest or store degrades to the empty-but-valid defaults (manifest:
version tag `"2.0"`, zero statistics, empty batch list, empty index; store:
empty mapping), and the build continues exactly as if it had started from
those defaults — but the degradation is silent: `_load_existing_data` emits
no log line in any branch. -/
theorem load_degradation (cfg : SiteCfg) (mRes : LoadResult Manifest)
    (pRes : LoadResult (List (String × StoredPaper))) :
    (loadExistingData cfg .absent pRes).1 = createEmptyManifest cfg.base_url ∧
    (loadExistingData cfg .invalid pRes).1 = createEmptyManifest cfg.base_url ∧
    (loadExistingData cfg mRes .absent).2.1 = [] ∧
    (loadExistingData cfg mRes .invalid).2.1 = [] ∧
    (createEmptyManifest cfg.base_url).version = "2.0" ∧
    (createEmptyManifest cfg.base_url).statistics = ⟨0, 0⟩ ∧
    (createEmptyManifest cfg.base_url).batches = [] ∧
    (createEmptyManifest cfg.base_url).papers = [] ∧
    (loadExistingData cfg mRes pRes).2.2 = [] ∧
    (∀ (b : Builder) (now : Clock) (env : Option String) (ss : List PaperSummary),
      b.site_config = cfg →
      build b now env .invalid .invalid ss =
        build b now env (.ok (createEmptyManifest cfg.base_url)) (.ok []) ss) := by
  refine ⟨rfl, rfl, ?_, ?_, rfl, rfl, rfl, rfl, ?_, ?_⟩
  · cases mRes <;> rfl
  · cases mRes <;> rfl
  · cases mRes <;> cases pRes <;> rfl
  · intro b now env ss hb
    have hload : loadExistingData b.site_config LoadResult.invalid LoadResult.invalid =
        loadExistingData b.site_config (.ok (createEmptyManifest cfg.base_url)) (.ok []) := by
      rw [hb]
      rfl
    simp only [build, hload]

/-- Witness for C6 at a concrete configuration. -/
theorem load_degradation_witness :
    (loadExistingData demoBuilder.site_config .absent .absent).1 =
      createEmptyManifest demoBuilder.site_config.base_url ∧
    build demoBuilder demoClock none .invalid .invalid [] =
      build demoBuilder demoClock none
        (.ok (createEmptyManifest demoBuilder.site_config.base_url)) (.ok []) [] := by
  obtain ⟨h1, -, -, -, -, -, -, -, -, h10⟩ :=
    load_degradation demoBuilder.site_config .absent .absent
  exact ⟨h1, h10 demoBuilder demoClock none [] rfl⟩

/-- Counterexample for C6 as stated: with both persisted documents corrupt,
the loader emits no log line at all — the claimed warning is never logged
(the `except` branches of `_load_existing_data` contain no logging call). -/
theorem load_degradation_counterexample :
    (loadExistingData demoBuilder.site_config .invalid .invalid).2.2 = [] ∧
    (loadExistingData demoBuilder.site_config .invalid .invalid).1 =
      createEmptyManifest demoBuilder.site_config.base_url ∧
    (loadExistingData demoBuilder.site_config .invalid .invalid).2.1 = [] :=
  ⟨rfl, rfl, rfl⟩

/-- C2 (amended).  The statistics invariant holds after every build that
accepts at least one record: `total_papers` equals the store size and
`total_batches` the batch-list length.  A build that accepts nothing leaves
the statistics exactly as loaded (so the invariant can fail then, see the
counterexample). -/
theorem statistics_invariant (b : Builder) (now : Clock) (env : Option String)
    (mRes : LoadResult Manifest) (pRes : LoadResult (List (String × StoredPaper)))
    (ss : List PaperSummary) :
    ((build b now env mRes pRes ss).newPapers ≠ [] →
      (build b now env mRes pRes ss).manifest.statistics.total_papers =
        ((build b now env mRes pRes ss).papers.length : ℤ) ∧
      (build b now env mRes pRes ss).manifest.statistics.total_batches =
        ((build b now env mRes pRes ss).manifest.batches.length : ℤ)) ∧
    ((build b now env mRes pRes ss).newPapers = [] →
      (build b now env mRes pRes ss).manifest.statistics =
        (loadExistingData b.site_config mRes pRes).1.statistics) := by
  constructor
  · intro h
    rw [build_newPapers_eq] at h
    rw [build_manifest_eq, build_papers_eq]
    rw [if_neg h]
    constructor
    · simp [saveManifestNormalize, updateBatchInfo]
    · simp [saveManifestNormalize, updateBatchInfo]
  · intro h
    rw [build_newPapers_eq] at h
    rw [build_manifest_eq, if_pos h]
    simp [saveManifestNormalize]

/-- Witness for C2: one fresh summary is accepted into an empty site and the
statistics match. -/
theorem statistics_invariant_witness :
    (build demoBuilder demoClock none .absent .absent [demoSummary]).manifest.statistics.total_papers =
      ((build demoBuilder demoClock none .absent .absent [demoSummary]).papers.length : ℤ) ∧
    (build demoBuilder demoClock none .absent .absent [demoSummary]).manifest.statistics.total_batches =
      ((build demoBuilder demoClock none .absent .absent [demoSummary]).manifest.batches.length : ℤ) :=
  (statistics_invariant demoBuilder demoClock none .absent .absent [demoSummary]).1
    (by rw [build_newPapers_eq]; decide)

/-- Counterexample for C2 as stated ("after every call to build"): a build
that accepts zero records (empty input) on a loaded state whose manifest
statistics are stale relative to the store persists `total_papers = 5`
while the store has `0` entries. -/
theorem statistics_invariant_counterexample :
    (build demoBuilder demoClock none (.ok staleManifest) (.ok []) []).manifest.statistics.total_papers = 5 ∧
    ((build demoBuilder demoClock none (.ok staleManifest) (.ok []) []).papers.length : ℤ) = 0 ∧
    (build demoBuilder demoClock none (.ok staleManifest) (.ok []) []).manifest.statistics.total_papers ≠
      ((build demoBuilder demoClock none (.ok staleManifest) (.ok []) []).papers.length : ℤ) :=
  ⟨rfl, rfl, by decide⟩

/-- C3 (amended).  The statistics and the manifest's `last_updated` timestamp
are refreshed only when at least one incoming record is accepted; a build
that accepts zero records leaves both exactly as loaded.  What *is*
refreshed unconditionally on every save is the legacy `generated` timestamp
(and `base_url`). -/
theorem unconditional_refresh (b : Builder) (now : Clock) (env : Option String)
    (mRes : LoadResult Manifest) (pRes : LoadResult (List (String × StoredPaper)))
    (ss : List PaperSummary) :
    ((build b now env mRes pRes ss).newPapers ≠ [] →
      (build b now env mRes pRes ss).manifest.last_updated = some now.iso) ∧
    ((build b now env mRes pRes ss).newPapers = [] →
      (build b now env mRes pRes ss).manifest.last_updated =
        (loadExistingData b.site_config mRes pRes).1.last_updated ∧
      (build b now env mRes pRes ss).manifest.statistics =
        (loadExistingData b.site_config mRes pRes).1.statistics) ∧
    (env = none → (build b now env mRes pRes ss).manifest.generated = some now.iso) ∧
    (build b now env mRes pRes ss).manifest.base_url = b.site_config.base_url := by
  refine ⟨?_, ?_, ?_, ?_⟩
  · intro h
    rw [build_newPapers_eq] at h
    rw [build_manifest_eq, if_neg h]
    simp [saveManifestNormalize, updateBatchInfo]
  · intro h
    rw [build_newPapers_eq] at h
    rw [build_manifest_eq, if_pos h]
    simp [saveManifestNormalize]
  · intro h
    subst h
    rw [build_manifest_eq]
    simp [saveManifestNormalize]
  · rw [build_manifest_eq]
    simp [saveManifestNormalize]

/-- Witness for C3 at a concrete accepted record. -/
theorem unconditional_refresh_witness :
    (build demoBuilder demoClock none .absent .absent [demoSummary]).manifest.last_updated =
      some demoClock.iso ∧
    (build demoBuilder demoClock none .absent .absent [demoSummary]).manifest.generated =
      some demoClock.iso :=
  ⟨(unconditional_refresh demoBuilder demoClock none .absent .absent [demoSummary]).1
      (by rw [build_newPapers_eq]; decide),
   (unconditional_refresh demoBuilder demoClock none .absent .absent [demoSummary]).2.2.1 rfl⟩

/-- Counterexample for C3 as stated: on a build with zero accepted records
the manifest's `last_updated` stays `None` and the statistics stay stale —
they are not recomputed "unconditionally" (`_update_batch_info`, the only
place that writes them, runs only when `new_papers` is non-empty). -/
theorem unconditional_refresh_counterexample :
    (build demoBuilder demoClock none (.ok staleManifest) (.ok []) []).manifest.last_updated = none ∧
    (build demoBuilder demoClock none (.ok staleManifest) (.ok []) []).manifest.last_updated ≠
      some demoClock.iso ∧
    (build demoBuilder demoClock none (.ok staleManifest) (.ok []) []).manifest.statistics =
      staleManifest.statistics :=
  ⟨rfl, by decide, rfl⟩

/-! ## Batch bookkeeping lemmas (for C5) -/

theorem build_batchId_eq (b : Builder) (now : Clock) (env : Option String)
    (mRes : LoadResult Manifest) (pRes : LoadResult (List (String × StoredPaper)))
    (ss : List PaperSummary) :
    (build b now env mRes pRes ss).batchId = getBatchId now.year now.week := rfl

theorem build_batches_eq (b : Builder) (now : Clock) (env : Option String)
    (mRes : LoadResult Manifest) (pRes : LoadResult (List (String × StoredPaper)))
    (ss : List PaperSummary) :
    (build b now env mRes pRes ss).manifest.batches =
      if (buildMergeState b now mRes pRes ss).newPapers = [] then
        (loadExistingData b.site_config mRes pRes).1.batches
      else
        (updateBatchInfo (getBatchId now.year now.week)
          (buildMergeState b now mRes pRes ss).newPapers
          (buildMergeState b now mRes pRes ss).papers.length now
          { (loadExistingData b.site_config mRes pRes).1 with
              papers := (buildMergeState b now mRes pRes ss).manifestPapers }).batches := by
  rw [build_manifest_eq]
  split <;> simp [saveManifestNormalize]

theorem updateFirstBatch_mono (id : String) (n : ℤ) (hn : 0 ≤ n)
    (tps : List String) (l : List BatchEntry) :
    ∀ bE ∈ l, ∃ bE₂ ∈ updateFirstBatch id n tps l,
      bE₂.id = bE.id ∧ bE.paper_count ≤ bE₂.paper_count ∧
      ∀ t ∈ bE.topics, t ∈ bE₂.topics := by
  induction l with
  | nil => intro bE h; cases h
  | cons hd tl ih =>
    intro bE hmem
    by_cases hid : hd.id = id
    · rw [updateFirstBatch, if_pos hid]
      rcases List.mem_cons.mp hmem with heq | htl
      · subst heq
        refine ⟨_, List.mem_cons_self _ _, rfl, le_add_of_nonneg_right hn, ?_⟩
        intro t ht
        simp [pySetUnion, List.mem_dedup]
        exact Or.inl ht
      · exact ⟨bE, List.mem_cons_of_mem _ htl, rfl, le_refl _, fun t ht => ht⟩
    · rw [updateFirstBatch, if_neg hid]
      rcases List.mem_cons.mp hmem with heq | htl
      · subst heq
        exact ⟨bE, List.mem_cons_self _ _, rfl, le_refl _, fun t ht => ht⟩
      · obtain ⟨bE₂, h₂, hprop⟩ := ih bE htl
        exact ⟨bE₂, List.mem_cons_of_mem _ h₂, hprop⟩

theorem find?_updateFirstBatch (id : String) (n : ℤ) (tps : List String)
    (l : List BatchEntry) :
    (updateFirstBatch id n tps l).find? (fun bE => bE.id = id) =
      (l.find? (fun bE => bE.id = id)).map
        (fun bE => { bE with paper_count := bE.paper_count + n,
                             topics := pySetUnion bE.topics tps }) := by
  induction l with
  | nil => rfl
  | cons hd tl ih =>
    by_cases hid : hd.id = id
    · rw [updateFirstBatch, if_pos hid]
      rw [List.find?_cons_of_pos _ (by simpa using hid),
          List.find?_cons_of_pos _ (by simpa using hid)]
      rfl
    · rw [updateFirstBatch, if_neg hid]
      rw [List.find?_cons_of_neg _ (by simpa using hid),
          List.find?_cons_of_neg _ (by simpa using hid)]
      exact ih

/-- C5.  Batch monotonicity across a build: every loaded batch entry
survives with the same id, a never-decreasing paper count and a
non-decreasing topic set; when records are accepted, the current batch's
count grows by exactly the number of accepted records; a zero-accept build
leaves the batch list untouched. -/
theorem batch_monotonicity (b : Builder) (now : Clock) (env : Option String)
    (mRes : LoadResult Manifest) (pRes : LoadResult (List (String × StoredPaper)))
    (ss : List PaperSummary) :
    (∀ bE ∈ (loadExistingData b.site_config mRes pRes).1.batches,
      ∃ bE₂ ∈ (build b now env mRes pRes ss).manifest.batches,
        bE₂.id = bE.id ∧ bE.paper_count ≤ bE₂.paper_count ∧
        ∀ t ∈ bE.topics, t ∈ bE₂.topics) ∧
    ((build b now env mRes pRes ss).newPapers ≠ [] →
      batchCount (build b now env mRes pRes ss).manifest.batches
          (build b now env mRes pRes ss).batchId =
        some ((batchCount (loadExistingData b.site_config mRes pRes).1.batches
            (build b now env mRes pRes ss).batchId).getD 0 +
          ((build b now env mRes pRes ss).newPapers.length : ℤ))) ∧
    ((build b now env mRes pRes ss).newPapers = [] →
      (build b now env mRes pRes ss).manifest.batches =
        (loadExistingData b.site_config mRes pRes).1.batches) := by
  refine ⟨?_, ?_, ?_⟩
  · intro bE hmem
    rw [build_batches_eq]
    by_cases hnew : (buildMergeState b now mRes pRes ss).newPapers = []
    · rw [if_pos hnew]
      exact ⟨bE, hmem, rfl, le_refl _, fun t ht => ht⟩
    · rw [if_neg hnew]
      unfold updateBatchInfo
      simp only
      by_cases hany : ((loadExistingData b.site_config mRes pRes).1.batches.any
          (fun bE => bE.id = getBatchId now.year now.week)) = true
      · rw [if_pos hany]
        exact updateFirstBatch_mono _ _ (by positivity) _ _ bE hmem
      · rw [if_neg hany]
        exact ⟨bE, List.mem_cons_of_mem _ hmem, rfl, le_refl _, fun t ht => ht⟩
  · intro hnew
    rw [build_newPapers_eq] at hnew
    rw [build_batches_eq, build_batchId_eq, build_newPapers_eq, if_neg hnew]
    unfold updateBatchInfo batchCount
    simp only
    by_cases hany : ((loadExistingData b.site_config mRes pRes).1.batches.any
        (fun bE => bE.id = getBatchId now.year now.week)) = true
    · rw [if_pos hany]
      rw [find?_updateFirstBatch]
      obtain ⟨bE, hbe, hpe⟩ := List.any_eq_true.mp hany
      have hsome : ((loadExistingData b.site_config mRes pRes).1.batches.find?
          (fun bE => bE.id = getBatchId now.year now.week)).isSome := by
        rw [List.find?_isSome]
        exact ⟨bE, hbe, hpe⟩
      obtain ⟨bE₀, hfind⟩ := Option.isSome_iff_exists.mp hsome
      rw [hfind]
      rfl
    · rw [if_neg hany]
      have hnone : (loadExistingData b.site_config mRes pRes).1.batches.find?
          (fun bE => bE.id = getBatchId now.year now.week) = none := by
        rw [List.find?_eq_none]
        intro x hx
        intro hpx
        exact hany (List.any_eq_true.mpr ⟨x, hx, hpx⟩)
      rw [List.find?_cons_of_pos _ (by simp), hnone]
      simp
  · intro hnew
    rw [build_newPapers_eq] at hnew
    rw [build_batches_eq, if_pos hnew]

/-- Witness for C5: a fresh summary lands in a batch id absent from the
loaded batch list, so the current batch count is `0 + 1`. -/
theorem batch_monotonicity_witness :
    batchCount (build demoBuilder demoClock none (.ok staleManifest) (.ok [])
        [demoSummary]).manifest.batches
      (build demoBuilder demoClock none (.ok staleManifest) (.ok [])
        [demoSummary]).batchId =
    some ((batchCount (loadExistingData demoBuilder.site_config (.ok staleManifest)
          (.ok [])).1.batches
        (build demoBuilder demoClock none (.ok staleManifest) (.ok [])
          [demoSummary]).batchId).getD 0 +
      ((build demoBuilder demoClock none (.ok staleManifest) (.ok [])
        [demoSummary]).newPapers.length : ℤ)) :=
  (batch_monotonicity demoBuilder demoClock none (.ok staleManifest) (.ok []) [demoSummary]).2.1
    (by rw [build_newPapers_eq]; decide)

/-! ## Merge-loop lemmas (for C1) -/

theorem lookup_isSome_iff {α : Type} (k : String) (l : List (String × α)) :
    (l.lookup k).isSome ↔ k ∈ l.map Prod.fst := by
  induction l with
  | nil => simp [List.lookup]
  | cons hd tl ih =>
    obtain ⟨k', v⟩ := hd
    by_cases h : k = k'
    · subst h
      simp [List.lookup]
    · have hbeq : (k == k') = false := by simp [h]
      simp [List.lookup, hbeq, ih, h]


theorem mergeStep_core (bid : String) (now : Clock) (st₁ st₂ : MergeState)
    (h : mergeCore st₁ = mergeCore st₂) (s : PaperSummary) :
    mergeCore (mergeStep bid now st₁ s) = mergeCore (mergeStep bid now st₂ s) := by
  simp only [mergeCore, Prod.mk.injEq] at h
  obtain ⟨h1, h2, h3, h4⟩ := h
  simp only [mergeStep, h1, h2, h3, h4]
  split <;> simp [mergeCore, h1, h2, h3, h4]

theorem foldl_mergeStep_core (bid : String) (now : Clock) (ss : List PaperSummary) :
    ∀ st₁ st₂ : MergeState, mergeCore st₁ = mergeCore st₂ →
      mergeCore (ss.foldl (mergeStep bid now) st₁) =
        mergeCore (ss.foldl (mergeStep bid now) st₂) := by
  induction ss with
  | nil => intro st₁ st₂ h; simpa using h
  | cons s ss ih =>
    intro st₁ st₂ h
    simp only [List.foldl_cons]
    exact ih _ _ (mergeStep_core bid now st₁ st₂ h s)

theorem foldl_papers_prefix (bid : String) (now : Clock) (ss : List PaperSummary) :
    ∀ st : MergeState, ∃ ext,
      (ss.foldl (mergeStep bid now) st).papers = st.papers ++ ext := by
  induction ss with
  | nil => intro st; exact ⟨[], by simp⟩
  | cons s ss ih =>
    intro st
    simp only [List.foldl_cons]
    obtain ⟨ext, hext⟩ := ih (mergeStep bid now st s)
    by_cases hl : ((st.papers.lookup s.paper.arxiv_id).isSome) = true
    · refine ⟨ext, ?_⟩
      rw [hext]
      simp [mergeStep, hl]
    · refine ⟨(s.paper.arxiv_id, ⟨s.toDict, bid, now.iso⟩) :: ext, ?_⟩
      rw [hext]
      simp [mergeStep, hl]

theorem foldl_keys_mono (bid : String) (now : Clock) (ss : List PaperSummary)
    (st : MergeState) (a : String) (h : a ∈ st.papers.map Prod.fst) :
    a ∈ (ss.foldl (mergeStep bid now) st).papers.map Prod.fst := by
  obtain ⟨ext, hext⟩ := foldl_papers_prefix bid now ss st
  rw [hext, List.map_append]
  exact List.mem_append_left _ h

theorem foldl_mem_keys (bid : String) (now : Clock) (ss : List PaperSummary) :
    ∀ st : MergeState, ∀ s ∈ ss,
      s.paper.arxiv_id ∈ (ss.foldl (mergeStep bid now) st).papers.map Prod.fst := by
  induction ss with
  | nil => intro st s hs; cases hs
  | cons s₀ ss ih =>
    intro st s hs
    simp only [List.foldl_cons]
    rcases List.mem_cons.mp hs with heq | htl
    · subst heq
      apply foldl_keys_mono
      by_cases hl : ((st.papers.lookup s.paper.arxiv_id).isSome) = true
      · have hmem : s.paper.arxiv_id ∈ st.papers.map Prod.fst :=
          (lookup_isSome_iff _ _).mp hl
        simpa [mergeStep, hl] using hmem
      · simp [mergeStep, hl]
    · exact ih (mergeStep bid now st s₀) s htl

theorem foldl_all_dup (bid : String) (now : Clock) (ss : List PaperSummary) :
    ∀ st : MergeState,
      (∀ s ∈ ss, s.paper.arxiv_id ∈ st.papers.map Prod.fst) →
      mergeCore (ss.foldl (mergeStep bid now) st) = mergeCore st := by
  induction ss with
  | nil => intro st _; rfl
  | cons s ss ih =>
    intro st h
    have hdup : ((st.papers.lookup s.paper.arxiv_id).isSome) = true :=
      (lookup_isSome_iff _ _).mpr (h s (List.mem_cons_self _ _))
    have hcore : mergeCore (mergeStep bid now st s) = mergeCore st := by
      simp [mergeStep, hdup, mergeCore]
    calc mergeCore ((s :: ss).foldl (mergeStep bid now) st)
        = mergeCore (ss.foldl (mergeStep bid now) (mergeStep bid now st s)) := rfl
      _ = mergeCore (ss.foldl (mergeStep bid now) st) :=
          foldl_mergeStep_core bid now ss _ _ hcore
      _ = mergeCore st := ih st (fun s' hs' => h s' (List.mem_cons_of_mem _ hs'))

theorem foldl_dedup (bid : String) (now : Clock) (ss : List PaperSummary) :
    ∀ st : MergeState,
      mergeCore (ss.foldl (mergeStep bid now) st) =
        mergeCore ((freshFirst (st.papers.map Prod.fst) ss).foldl (mergeStep bid now) st) := by
  induction ss with
  | nil => intro st; rfl
  | cons s ss ih =>
    intro st
    by_cases hmem : s.paper.arxiv_id ∈ st.papers.map Prod.fst
    · have hdup : ((st.papers.lookup s.paper.arxiv_id).isSome) = true :=
        (lookup_isSome_iff _ _).mpr hmem
      have hcore : mergeCore (mergeStep bid now st s) = mergeCore st := by
        simp [mergeStep, hdup, mergeCore]
      have hrhs : freshFirst (st.papers.map Prod.fst) (s :: ss) =
          freshFirst (st.papers.map Prod.fst) ss := by
        simp [freshFirst, hmem]
      rw [hrhs]
      calc mergeCore ((s :: ss).foldl (mergeStep bid now) st)
          = mergeCore (ss.foldl (mergeStep bid now) (mergeStep bid now st s)) := rfl
        _ = mergeCore (ss.foldl (mergeStep bid now) st) :=
            foldl_mergeStep_core bid now ss _ _ hcore
        _ = mergeCore ((freshFirst (st.papers.map Prod.fst) ss).foldl (mergeStep bid now) st) :=
            ih st
    · have hl : ¬ ((st.papers.lookup s.paper.arxiv_id).isSome) = true :=
        fun hc => hmem ((lookup_isSome_iff _ _).mp hc)
      have hrhs : freshFirst (st.papers.map Prod.fst) (s :: ss) =
          s :: freshFirst (st.papers.map Prod.fst ++ [s.paper.arxiv_id]) ss := by
        simp [freshFirst, hmem]
      rw [hrhs]
      simp only [List.foldl_cons]
      have hkeys : (mergeStep bid now st s).papers.map Prod.fst =
          st.papers.map Prod.fst ++ [s.paper.arxiv_id] := by
        simp [mergeStep, hl]
      rw [← hkeys]
      exact ih (mergeStep bid now st s)

theorem foldl_keys_nodup (bid : String) (now : Clock) (ss : List PaperSummary) :
    ∀ st : MergeState, (st.papers.map Prod.fst).Nodup →
      ((ss.foldl (mergeStep bid now) st).papers.map Prod.fst).Nodup := by
  induction ss with
  | nil => intro st h; simpa using h
  | cons s ss ih =>
    intro st h
    simp only [List.foldl_cons]
    apply ih
    by_cases hl : ((st.papers.lookup s.paper.arxiv_id).isSome) = true
    · simpa [mergeStep, hl] using h
    · have hnotmem : s.paper.arxiv_id ∉ st.papers.map Prod.fst :=
        fun hc => hl ((lookup_isSome_iff _ _).mpr hc)
      simp [mergeStep, hl, List.nodup_append, h, hnotmem]

theorem saveManifestNormalize_idem (cfg : SiteCfg) (env : Option String)
    (now : Clock) (m : Manifest) :
    saveManifestNormalize cfg env now (saveManifestNormalize cfg env now m) =
      saveManifestNormalize cfg env now m := rfl

/-- C1.  Re-ingestion is idempotent: building a second time from the
persisted results with the same summaries accepts nothing and leaves the
Paper Store and the manifest untouched; one build equals a build on the
spec's deduplicated input as far as the store goes; and no identifier ever
holds two store entries (key list stays duplicate-free). -/
theorem reingest_idempotent (b : Builder) (now : Clock) (env : Option String)
    (mRes : LoadResult Manifest) (pRes : LoadResult (List (String × StoredPaper)))
    (ss : List PaperSummary)
    (hnodup : ((loadExistingData b.site_config mRes pRes).2.1.map Prod.fst).Nodup) :
    (build b now env (.ok (build b now env mRes pRes ss).manifest)
        (.ok (build b now env mRes pRes ss).papers) ss).newPapers = [] ∧
    (build b now env (.ok (build b now env mRes pRes ss).manifest)
        (.ok (build b now env mRes pRes ss).papers) ss).papers =
      (build b now env mRes pRes ss).papers ∧
    (build b now env (.ok (build b now env mRes pRes ss).manifest)
        (.ok (build b now env mRes pRes ss).papers) ss).manifest =
      (build b now env mRes pRes ss).manifest ∧
    (build b now env mRes pRes ss).papers =
      (build b now env mRes pRes
        (freshFirst ((loadExistingData b.site_config mRes pRes).2.1.map Prod.fst) ss)).papers ∧
    ((build b now env mRes pRes ss).papers.map Prod.fst).Nodup := by
  have hb1 : buildMergeState b now mRes pRes ss =
      ss.foldl (mergeStep (getBatchId now.year now.week) now)
        ⟨(loadExistingData b.site_config mRes pRes).2.1,
         (loadExistingData b.site_config mRes pRes).1.papers, [], [],
         (loadExistingData b.site_config mRes pRes).2.2⟩ := rfl
  have hmem : ∀ s ∈ ss, s.paper.arxiv_id ∈
      (buildMergeState b now mRes pRes ss).papers.map Prod.fst := by
    intro s hs
    rw [hb1]
    exact foldl_mem_keys _ _ ss _ s hs
  have hb2 : buildMergeState b now
      (.ok (build b now env mRes pRes ss).manifest)
      (.ok (build b now env mRes pRes ss).papers) ss =
      ss.foldl (mergeStep (getBatchId now.year now.week) now)
        ⟨(build b now env mRes pRes ss).papers,
         (build b now env mRes pRes ss).manifest.papers, [], [], []⟩ := rfl
  have hdup2 : ∀ s ∈ ss, s.paper.arxiv_id ∈
      ((build b now env mRes pRes ss).papers.map Prod.fst) := by
    intro s hs
    rw [build_papers_eq]
    exact hmem s hs
  have hcore2 : mergeCore (buildMergeState b now
      (.ok (build b now env mRes pRes ss).manifest)
      (.ok (build b now env mRes pRes ss).papers) ss) =
      mergeCore ⟨(build b now env mRes pRes ss).papers,
        (build b now env mRes pRes ss).manifest.papers, [], [], []⟩ := by
    rw [hb2]
    exact foldl_all_dup _ _ ss _ hdup2
  simp only [mergeCore, Prod.mk.injEq] at hcore2
  obtain ⟨hp2, hmp2, hnp2, -⟩ := hcore2
  refine ⟨?_, ?_, ?_, ?_, ?_⟩
  · rw [build_newPapers_eq]
    exact hnp2
  · rw [build_papers_eq]
    exact hp2
  · rw [build_manifest_eq, if_pos hnp2, hmp2]
    have heta : { (loadExistingData b.site_config
        (.ok (build b now env mRes pRes ss).manifest)
        (.ok (build b now env mRes pRes ss).papers)).1 with
          papers := (build b now env mRes pRes ss).manifest.papers } =
        (build b now env mRes pRes ss).manifest := rfl
    rw [heta]
    conv_rhs => rw [build_manifest_eq]
    rw [build_manifest_eq]
    exact saveManifestNormalize_idem ..
  · rw [build_papers_eq, build_papers_eq]
    have hd := foldl_dedup (getBatchId now.year now.week) now ss
      ⟨(loadExistingData b.site_config mRes pRes).2.1,
       (loadExistingData b.site_config mRes pRes).1.papers, [], [],
       (loadExistingData b.site_config mRes pRes).2.2⟩
    simp only [mergeCore, Prod.mk.injEq] at hd
    rw [hb1]
    exact hd.1
  · rw [build_papers_eq, hb1]
    exact foldl_keys_nodup _ _ ss _ hnodup

/-- Witness for C1: one summary ingested over an empty prior store. -/
theorem reingest_idempotent_witness :
    (build demoBuilder demoClock none
        (.ok (build demoBuilder demoClock none (.ok staleManifest) (.ok []) [demoSummary]).manifest)
        (.ok (build demoBuilder demoClock none (.ok staleManifest) (.ok []) [demoSummary]).papers)
        [demoSummary]).newPapers = [] ∧
    (build demoBuilder demoClock none
        (.ok (build demoBuilder demoClock none (.ok staleManifest) (.ok []) [demoSummary]).manifest)
        (.ok (build demoBuilder demoClock none (.ok staleManifest) (.ok []) [demoSummary]).papers)
        [demoSummary]).papers =
      (build demoBuilder demoClock none (.ok staleManifest) (.ok []) [demoSummary]).papers ∧
    ((build demoBuilder demoClock none (.ok staleManifest) (.ok [])
        [demoSummary]).papers.map Prod.fst).Nodup := by
  obtain ⟨h1, h2, -, -, h5⟩ :=
    reingest_idempotent demoBuilder demoClock none (.ok staleManifest) (.ok [])
      [demoSummary] (by decide)
  exact ⟨h1, h2, h5⟩

/-! ## Escaping lemmas (for C7) -/

theorem htmlEscape_no_specials (t : String) :
    ∀ c ∈ (htmlEscape t).data, c ≠ '<' ∧ c ≠ '>' ∧ c ≠ '"' ∧ c ≠ '\x27' := by
  intro c hc
  have hc2 : c ∈ (t.data.map escapeChar).flatten := hc
  rw [List.mem_flatten] at hc2
  obtain ⟨l, hl, hcl⟩ := hc2
  rw [List.mem_map] at hl
  obtain ⟨a, -, rfl⟩ := hl
  unfold escapeChar at hcl
  split_ifs at hcl with h1 h2 h3 h4 h5
  · rw [show ("&amp;").data = ['&', 'a', 'm', 'p', ';'] from rfl] at hcl
    fin_cases hcl <;> refine ⟨by decide, by decide, by decide, by decide⟩
  · rw [show ("&lt;").data = ['&', 'l', 't', ';'] from rfl] at hcl
    fin_cases hcl <;> refine ⟨by decide, by decide, by decide, by decide⟩
  · rw [show ("&gt;").data = ['&', 'g', 't', ';'] from rfl] at hcl
    fin_cases hcl <;> refine ⟨by decide, by decide, by decide, by decide⟩
  · rw [show ("&quot;").data = ['&', 'q', 'u', 'o', 't', ';'] from rfl] at hcl
    fin_cases hcl <;> refine ⟨by decide, by decide, by decide, by decide⟩
  · rw [show ("&#x27;").data = ['&', '#', 'x', '2', '7', ';'] from rfl] at hcl
    fin_cases hcl <;> refine ⟨by decide, by decide, by decide, by decide⟩
  · rw [List.mem_singleton] at hcl
    subst hcl
    exact ⟨h2, h3, h4, h5⟩

theorem mem_intersperse_of_mem {α : Type} (sep : α) :
    ∀ (l : List α) (x : α), x ∈ l → x ∈ l.intersperse sep := by
  intro l
  induction l with
  | nil => intro x hx; cases hx
  | cons a tl ih =>
    intro x hx
    cases tl with
    | nil => simpa using hx
    | cons b tl2 =>
      rw [List.intersperse_cons_cons]
      rcases List.mem_cons.mp hx with rfl | htl
      · exact List.mem_cons_self _ _
      · exact List.mem_cons_of_mem _ (List.mem_cons_of_mem _ (ih x htl))

theorem mem_joinLines (l : List String) (x : String) (h : x ∈ l) :
    x.data <:+: (joinLines l).data := by
  show x.data <:+: List.intercalate ("\n").data (l.map String.data)
  rw [List.intercalate]
  exact List.infix_of_mem_flatten
    (mem_intersperse_of_mem _ _ _ (List.mem_map_of_mem _ h))

theorem renderPaper_escapes_title (b : Builder) (s : PaperSummary) :
    (htmlEscape s.paper.title).data <:+: (renderPaper b s).data := by
  have hinner : (htmlEscape s.paper.title).data <:+:
      ("  <title>" ++ htmlEscape s.paper.title ++ "</title>").data :=
    ⟨("  <title>").data, ("</title>").data, by simp⟩
  simp only [renderPaper]
  refine hinner.trans (mem_joinLines _ _ ?_)
  simp

theorem renderPaper_title_factor (b : Builder) (s : PaperSummary) (t : String)
    (h : htmlEscape t = htmlEscape s.paper.title) :
    renderPaper b { s with paper := { s.paper with title := t } } = renderPaper b s := by
  simp [renderPaper, h]

theorem renderIndex_escapes_title (b : Builder) (now : Clock)
    (entries : List (String × List StoredPaper)) (tp : ℤ) (tb : ℕ) (cbid : String) :
    ∀ e ∈ entries, ∀ pd ∈ e.2,
      (htmlEscape pd.data.paper.title).data <:+:
        (renderIndexWithArchives b now entries tp tb cbid).data := by
  intro e he pd hpd
  have hcount : ¬(entries = [] ∨ (entries.map (fun e => e.2.length)).sum = 0) := by
    rintro (rfl | hzero)
    · cases he
    · have : e.2.length = 0 :=
        List.sum_eq_zero_iff.mp hzero _ (List.mem_map_of_mem _ he)
      rw [List.length_eq_zero] at this
      rw [this] at hpd
      cases hpd
  have hinner : (htmlEscape pd.data.paper.title).data <:+:
      ("              <a href=\x27" ++
        htmlEscape ("topics/" ++ e.1 ++ "/" ++ pd.data.paper.arxiv_id ++ ".html") ++
        "\x27>" ++ htmlEscape pd.data.paper.title ++ "</a>").data :=
    ⟨("              <a href=\x27" ++
        htmlEscape ("topics/" ++ e.1 ++ "/" ++ pd.data.paper.arxiv_id ++ ".html") ++
        "\x27>").data, ("</a>").data, by simp⟩
  simp only [renderIndexWithArchives]
  rw [if_neg hcount]
  refine hinner.trans (mem_joinLines _ _ ?_)
  refine List.mem_append_left _ (List.mem_append_right _ ?_)
  refine List.mem_flatten_of_mem (List.mem_map_of_mem _ he) ?_
  refine List.mem_append_left _ (List.mem_append_right _ ?_)
  refine List.mem_flatten_of_mem (List.mem_map_of_mem _ hpd) ?_
  simp

/-- C7.  HTML escaping: (i) the escaped form of a title contains no raw `<`,
`>`, double quote or apostrophe; (ii) the escaped title is embedded in the
rendered detail page; (iii) the detail page depends on the title only
through `_escape`, so raw title markup never reaches the page (two titles
with the same escape render identically); (iv) every stored title on the
index page is embedded in escaped form. -/
theorem html_escaping (b : Builder) (s : PaperSummary) :
    (∀ c ∈ (htmlEscape s.paper.title).data, c ≠ '<' ∧ c ≠ '>' ∧ c ≠ '"' ∧ c ≠ '\x27') ∧
    (htmlEscape s.paper.title).data <:+: (renderPaper b s).data ∧
    (∀ t, htmlEscape t = htmlEscape s.paper.title →
      renderPaper b { s with paper := { s.paper with title := t } } = renderPaper b s) ∧
    (∀ (now : Clock) (entries : List (String × List StoredPaper)) (tp : ℤ) (tb : ℕ)
        (cbid : String), ∀ e ∈ entries, ∀ pd ∈ e.2,
      (htmlEscape pd.data.paper.title).data <:+:
        (renderIndexWithArchives b now entries tp tb cbid).data) :=
  ⟨htmlEscape_no_specials _, renderPaper_escapes_title b s,
   fun t ht => renderPaper_title_factor b s t ht,
   fun now entries tp tb cbid => renderIndex_escapes_title b now entries tp tb cbid⟩

/-- Witness for C7 at the spec's `<script>` example: the escape is the
entity-escaped literal, it is embedded in the rendered page, and it contains
no raw `<`. -/
theorem html_escaping_witness :
    htmlEscape "<script>alert(1)</script>" = "&lt;script&gt;alert(1)&lt;/script&gt;" ∧
    (htmlEscape evilSummary.paper.title).data <:+: (renderPaper demoBuilder evilSummary).data ∧
    '<' ∉ (htmlEscape evilSummary.paper.title).data := by
  obtain ⟨h1, h2, -, -⟩ := html_escaping demoBuilder evilSummary
  exact ⟨by decide, h2, fun hc => (h1 '<' hc).1 rfl⟩

/-! ## Line-splitting lemmas (for C10) -/

theorem splitOn_sep_not_mem {α : Type} [DecidableEq α] (x : α) :
    ∀ (l : List α), ∀ l' ∈ l.splitOn x, x ∉ l' := by
  intro l
  induction l with
  | nil =>
    intro l' h
    rw [List.splitOn_nil, List.mem_singleton] at h
    subst h
    exact List.not_mem_nil x
  | cons a tl ih =>
    intro l' h
    rw [show (a :: tl).splitOn x = (a :: tl).splitOnP (· == x) from rfl,
        List.splitOnP_cons] at h
    by_cases hax : a = x
    · rw [if_pos (by simp [hax])] at h
      rcases List.mem_cons.mp h with rfl | h2
      · exact List.not_mem_nil x
      · exact ih l' h2
    · rw [if_neg (by simp [hax])] at h
      obtain ⟨hd, tl2, heq⟩ : ∃ hd tl2, tl.splitOnP (· == x) = hd :: tl2 := by
        cases htl : tl.splitOnP (· == x) with
        | nil => exact absurd htl (List.splitOnP_ne_nil _ tl)
        | cons hd tl2 => exact ⟨hd, tl2, rfl⟩
      have hsp : tl.splitOn x = hd :: tl2 := heq
      rw [heq, List.modifyHead_cons] at h
      rcases List.mem_cons.mp h with rfl | h2
      · intro hx
        rcases List.mem_cons.mp hx with rfl | hx2
        · exact hax rfl
        · exact ih hd (by rw [hsp]; exact List.mem_cons_self _ _) hx2
      · exact ih l' (by rw [hsp]; exact List.mem_cons_of_mem _ h2)

theorem intercalate_cons₂ {α : Type} (sep : List α) (a b : List α)
    (t : List (List α)) :
    sep.intercalate (a :: b :: t) = a ++ sep ++ sep.intercalate (b :: t) := by
  simp [List.intercalate, List.intersperse_cons_cons]

theorem intercalate_single {α : Type} (sep : List α) (a : List α) :
    sep.intercalate [a] = a := by
  simp [List.intercalate]

theorem modifyHead_append_left {α : Type} (f : α → α) (l₁ l₂ : List α)
    (h : l₁ ≠ []) :
    (l₁ ++ l₂).modifyHead f = l₁.modifyHead f ++ l₂ := by
  cases l₁ with
  | nil => exact absurd rfl h
  | cons a t => rfl

theorem splitOn_append {α : Type} [DecidableEq α] (x : α) :
    ∀ (s t : List α), (s ++ x :: t).splitOn x = s.splitOn x ++ t.splitOn x := by
  intro s t
  induction s with
  | nil =>
    rw [List.nil_append,
        show (x :: t).splitOn x = (x :: t).splitOnP (· == x) from rfl,
        List.splitOnP_cons, if_pos (by simp)]
    rfl
  | cons a s ih =>
    rw [List.cons_append,
        show (a :: (s ++ x :: t)).splitOn x = (a :: (s ++ x :: t)).splitOnP (· == x) from rfl,
        List.splitOnP_cons,
        show ((s ++ x :: t)).splitOnP (· == x) = (s ++ x :: t).splitOn x from rfl, ih,
        show (a :: s).splitOn x = (a :: s).splitOnP (· == x) from rfl,
        List.splitOnP_cons,
        show (s.splitOnP (· == x)) = s.splitOn x from rfl]
    by_cases hax : a = x
    · rw [if_pos (by simp [hax]), if_pos (by simp [hax])]
      rfl
    · rw [if_neg (by simp [hax]), if_neg (by simp [hax])]
      exact modifyHead_append_left _ _ _ (List.splitOnP_ne_nil (· == x) s)

theorem mem_splitOn_intercalate {α : Type} [DecidableEq α] (x : α) :
    ∀ (L : List (List α)) (l : List α), l ∈ L →
      ∀ y ∈ l.splitOn x, y ∈ (([x].intercalate L).splitOn x) := by
  intro L
  induction L with
  | nil => intro l h; cases h
  | cons l₁ rest ih =>
    intro l hl y hy
    cases rest with
    | nil =>
      rw [List.mem_singleton] at hl
      subst hl
      rw [intercalate_single]
      exact hy
    | cons l₂ rest₂ =>
      rw [intercalate_cons₂, List.append_assoc, List.singleton_append,
          splitOn_append]
      rcases List.mem_cons.mp hl with rfl | h2
      · exact List.mem_append_left _ hy
      · exact List.mem_append_right _ (ih l h2 y hy)

theorem splitOn_eq_single_of_not_mem {α : Type} [DecidableEq α] (x : α)
    (l : List α) (h : x ∉ l) : l.splitOn x = [l] :=
  List.splitOnP_eq_single _ _ (fun y hy => by simp; rintro rfl; exact h hy)

theorem pyStrip_wrap (a z : Char) (mid : List Char)
    (ha : pyIsSpace a = false) (hz : pyIsSpace z = false) :
    pyStrip ((' ' :: a :: (mid ++ [z])) ++ [' ']) = a :: (mid ++ [z]) := by
  unfold pyStrip
  rw [List.cons_append, List.cons_append]
  rw [List.dropWhile_cons, if_pos (by decide)]
  rw [List.dropWhile_cons, if_neg (by simp [ha])]
  rw [show (a :: ((mid ++ [z]) ++ [' '])).reverse = ' ' :: z :: (mid.reverse ++ [a]) from by simp]
  rw [List.dropWhile_cons, if_pos (by decide)]
  rw [List.dropWhile_cons, if_neg (by simp [hz])]
  simp

theorem toMarkdownRow_shape (p : PaperMetadata) (hp : cleanPaper p) :
    toMarkdownRow p =
      ('|' :: ' ' :: '[' :: ((p.title ++ ']' :: '(' :: p.arxiv_url) ++ [')', ' '])) ++
        '|' :: (' ' :: (p.published_date ++ ' ' :: '|' ::
          (' ' :: (p.venue ++ [' ', '|'])))) := by
  obtain ⟨ht, -, -, -, hu, -, -, -, hv, -⟩ := hp
  simp only [toMarkdownRow]
  rw [if_pos hu, ht, hv]
  simp [List.append_assoc]

theorem titleOfLine_row (p : PaperMetadata) (hp : cleanPaper p) :
    titleOfLine (toMarkdownRow p) = [p.title] := by
  have hrow := toMarkdownRow_shape p hp
  obtain ⟨ht, hpt, hbt, hnt, hu, hpu, hnu, hnd, hv, hnv⟩ := hp
  have hseg_nomem : '|' ∉ (' ' :: '[' ::
      ((p.title ++ ']' :: '(' :: p.arxiv_url) ++ [')', ' '])) := by
    intro hmem
    simp only [List.mem_cons, List.mem_append, List.not_mem_nil, or_false] at hmem
    rcases hmem with h | h | (h | h | h | h) | h | h
    exacts [absurd h (by decide), absurd h (by decide), hpt h,
      absurd h (by decide), absurd h (by decide), hpu h,
      absurd h (by decide), absurd h (by decide)]
  have hpre : ((("| [").data).isPrefixOf (toMarkdownRow p)) = true := by
    rw [List.isPrefixOf_iff_prefix, hrow]
    exact ⟨_, rfl⟩
  have hsplit : (toMarkdownRow p).splitOn '|' =
      [] :: (' ' :: '[' :: ((p.title ++ ']' :: '(' :: p.arxiv_url) ++ [')', ' '])) ::
        ((' ' :: (p.published_date ++ ' ' :: '|' ::
          (' ' :: (p.venue ++ [' ', '|'])))).splitOn '|') := by
    rw [hrow, splitOn_append]
    rw [show ('|' :: ' ' :: '[' :: ((p.title ++ ']' :: '(' :: p.arxiv_url) ++ [')', ' '])).splitOn '|' =
        ('|' :: ' ' :: '[' :: ((p.title ++ ']' :: '(' :: p.arxiv_url) ++ [')', ' '])).splitOnP (· == '|') from rfl,
        List.splitOnP_cons, if_pos (by decide)]
    rw [show (' ' :: '[' :: ((p.title ++ ']' :: '(' :: p.arxiv_url) ++ [')', ' '])).splitOnP (· == '|') =
        (' ' :: '[' :: ((p.title ++ ']' :: '(' :: p.arxiv_url) ++ [')', ' '])).splitOn '|' from rfl,
        splitOn_eq_single_of_not_mem _ _ hseg_nomem]
    rfl
  have hstrip : pyStrip (' ' :: '[' ::
      ((p.title ++ ']' :: '(' :: p.arxiv_url) ++ [')', ' '])) =
      '[' :: ((p.title ++ ']' :: '(' :: p.arxiv_url) ++ [')']) := by
    rw [show (' ' :: '[' :: ((p.title ++ ']' :: '(' :: p.arxiv_url) ++ [')', ' '])) =
        ((' ' :: '[' :: ((p.title ++ ']' :: '(' :: p.arxiv_url) ++ [')'])) ++ [' ']) from by simp]
    exact pyStrip_wrap '[' ')' _ (by decide) (by decide)
  have hnomem_bracket : ']' ∉ ('[' :: p.title) := by
    intro hmem
    rcases List.mem_cons.mp hmem with h | h
    · exact absurd h (by decide)
    · exact hbt h
  have hsplit2 : ('[' :: ((p.title ++ ']' :: '(' :: p.arxiv_url) ++ [')'])).splitOn ']' =
      ('[' :: p.title) :: (('(' :: (p.arxiv_url ++ [')'])).splitOn ']') := by
    rw [show ('[' :: ((p.title ++ ']' :: '(' :: p.arxiv_url) ++ [')'])) =
        (('[' :: p.title) ++ ']' :: ('(' :: (p.arxiv_url ++ [')']))) from by simp]
    rw [splitOn_append, splitOn_eq_single_of_not_mem _ _ hnomem_bracket]
    rfl
  unfold titleOfLine
  rw [if_pos (Or.inl hpre), hsplit]
  simp only
  rw [hstrip]
  rw [if_pos (show ((("[").data).isPrefixOf
      ('[' :: ((p.title ++ ']' :: '(' :: p.arxiv_url) ++ [')']))) = true by
    rw [List.isPrefixOf_iff_prefix]
    exact ⟨_, rfl⟩)]
  rw [hsplit2]
  simp

theorem toMarkdownRow_no_newline (p : PaperMetadata) (hp : cleanPaper p) :
    '\n' ∉ toMarkdownRow p := by
  have hrow := toMarkdownRow_shape p hp
  obtain ⟨ht, hpt, hbt, hnt, hu, hpu, hnu, hnd, hv, hnv⟩ := hp
  rw [hrow]
  intro hmem
  simp [hnt, hnu, hnd, hnv] at hmem

theorem toMarkdownRow_ne_nil (p : PaperMetadata) (hp : cleanPaper p) :
    toMarkdownRow p ≠ [] := by
  rw [toMarkdownRow_shape p hp]
  simp

theorem mem_insertRowsAfterSep_of_mem_rows (rows : List (List Char)) :
    ∀ (ls : List (List Char)), ∀ r ∈ rows, r ∈ insertRowsAfterSep rows ls := by
  intro ls
  induction ls with
  | nil => intro r hr; exact hr
  | cons l ls ih =>
    intro r hr
    rw [insertRowsAfterSep]
    split
    · exact List.mem_cons_of_mem _ (List.mem_append_left _ hr)
    · exact List.mem_cons_of_mem _ (ih r hr)

theorem mem_insertRowsAfterSep_of_mem_lines (rows : List (List Char)) :
    ∀ (ls : List (List Char)), ∀ l ∈ ls, l ∈ insertRowsAfterSep rows ls := by
  intro ls
  induction ls with
  | nil => intro l hl; cases hl
  | cons l₀ ls ih =>
    intro l hl
    rw [insertRowsAfterSep]
    rcases List.mem_cons.mp hl with rfl | h2
    · split
      · exact List.mem_cons_self _ _
      · exact List.mem_cons_self _ _
    · split
      · exact List.mem_cons_of_mem _ (List.mem_append_right _ h2)
      · exact List.mem_cons_of_mem _ (ih l h2)

theorem mem_insertRowsAfterSep_cases (rows : List (List Char)) :
    ∀ (ls : List (List Char)), ∀ y ∈ insertRowsAfterSep rows ls,
      y ∈ rows ∨ y ∈ ls := by
  intro ls
  induction ls with
  | nil => intro y hy; exact Or.inl hy
  | cons l₀ ls ih =>
    intro y hy
    rw [insertRowsAfterSep] at hy
    by_cases hcd : ((("| ---").data).isPrefixOf l₀ = true ∧ containsSub (("---").data) l₀ = true)
    · rw [if_pos hcd] at hy
      rcases List.mem_cons.mp hy with rfl | h2
      · exact Or.inr (List.mem_cons_self _ _)
      · rcases List.mem_append.mp h2 with h3 | h3
        · exact Or.inl h3
        · exact Or.inr (List.mem_cons_of_mem _ h3)
    · rw [if_neg hcd] at hy
      rcases List.mem_cons.mp hy with rfl | h2
      · exact Or.inr (List.mem_cons_self _ _)
      · rcases ih y h2 with h3 | h3
        · exact Or.inl h3
        · exact Or.inr (List.mem_cons_of_mem _ h3)

theorem insertRowsAfterSep_cons_ne_nil (rows : List (List Char))
    (l : List Char) (ls : List (List Char)) :
    insertRowsAfterSep rows (l :: ls) ≠ [] := by
  rw [insertRowsAfterSep]
  split <;> simp

theorem buildMarkdownTable_no_new (ts : List Char) (papers : List PaperMetadata)
    (E : List Char)
    (h : (papers.filter (fun p => p.title ∉ extractExistingTitles E)).map toMarkdownRow = []) :
    buildMarkdownTable ts papers E = E := by
  simp only [buildMarkdownTable]
  rw [if_pos h]

theorem mem_newRows {papers : List PaperMetadata} {E : List Char}
    (hclean : ∀ p ∈ papers, cleanPaper p) :
    ∀ r ∈ (papers.filter (fun p => p.title ∉ extractExistingTitles E)).map toMarkdownRow,
      ∃ p, p ∈ papers ∧ r = toMarkdownRow p ∧ cleanPaper p := by
  intro r hr
  obtain ⟨p, hpfil, rfl⟩ := List.mem_map.mp hr
  have hpp : p ∈ papers := (List.mem_filter.mp hpfil).1
  exact ⟨p, hpp, rfl, hclean p hpp⟩

theorem buildMarkdownTable_superset (ts : List Char) (papers : List PaperMetadata)
    (E : List Char) (hclean : ∀ p ∈ papers, cleanPaper p)
    (hnr : (papers.filter (fun p => p.title ∉ extractExistingTitles E)).map toMarkdownRow ≠ []) :
    (∀ r ∈ (papers.filter (fun p => p.title ∉ extractExistingTitles E)).map toMarkdownRow,
        r ∈ (buildMarkdownTable ts papers E).splitOn '\n') ∧
    ∀ l ∈ E.splitOn '\n', l ∈ (buildMarkdownTable ts papers E).splitOn '\n' := by
  have hrmem := mem_newRows (E := E) hclean
  simp only [buildMarkdownTable]
  rw [if_neg hnr]
  by_cases hhdr : (containsSub tableHeader E = true ∨ containsSub (("| Title |").data) E = true)
  · rw [if_pos hhdr]
    have hfree : ∀ l ∈ insertRowsAfterSep
        ((papers.filter (fun p => p.title ∉ extractExistingTitles E)).map toMarkdownRow)
        (E.splitOn '\n'), '\n' ∉ l := by
      intro l hl
      rcases mem_insertRowsAfterSep_cases _ _ l hl with h | h
      · obtain ⟨p, -, rfl, hcp⟩ := hrmem l h
        exact toMarkdownRow_no_newline p hcp
      · exact splitOn_sep_not_mem '\n' E l h
    have hne : insertRowsAfterSep
        ((papers.filter (fun p => p.title ∉ extractExistingTitles E)).map toMarkdownRow)
        (E.splitOn '\n') ≠ [] := by
      obtain ⟨l₁, ls₁, hls⟩ : ∃ l₁ ls₁, E.splitOn '\n' = l₁ :: ls₁ := by
        cases h : E.splitOn '\n' with
        | nil => exact absurd h (List.splitOnP_ne_nil _ E)
        | cons a b => exact ⟨a, b, rfl⟩
      rw [hls]
      exact insertRowsAfterSep_cons_ne_nil _ _ _
    rw [List.splitOn_intercalate _ '\n' hfree hne]
    exact ⟨fun r hr => mem_insertRowsAfterSep_of_mem_rows _ _ r hr,
           fun l hl => mem_insertRowsAfterSep_of_mem_lines _ _ l hl⟩
  · rw [if_neg hhdr]
    constructor
    · intro r hr
      obtain ⟨p, -, rfl, hcp⟩ := hrmem r hr
      refine mem_splitOn_intercalate '\n' _ (toMarkdownRow p) ?_ (toMarkdownRow p) ?_
      · exact List.mem_append_left _ (List.mem_append_right _ hr)
      · rw [splitOn_eq_single_of_not_mem '\n' _ (toMarkdownRow_no_newline p hcp)]
        exact List.mem_singleton_self _
    · intro l hl
      by_cases hE : E = []
      · subst hE
        rw [List.splitOn_nil, List.mem_singleton] at hl
        subst hl
        refine mem_splitOn_intercalate '\n' _ [] ?_ [] ?_
        · exact List.mem_append_left _ (List.mem_append_left _ (by simp))
        · rw [List.splitOn_nil]
          exact List.mem_singleton_self _
      · refine mem_splitOn_intercalate '\n' _ E ?_ l hl
        exact List.mem_append_right _ (by rw [if_pos hE]; simp)

theorem buildMarkdownTable_idem (ts : List Char) (papers : List PaperMetadata)
    (hclean : ∀ p ∈ papers, cleanPaper p) (E : List Char) :
    buildMarkdownTable ts papers (buildMarkdownTable ts papers E) =
      buildMarkdownTable ts papers E := by
  by_cases hnr : ((papers.filter (fun p => p.title ∉ extractExistingTitles E)).map toMarkdownRow) = []
  · have hC := buildMarkdownTable_no_new ts papers E hnr
    rw [hC]
    exact hC
  · obtain ⟨hsub1, hsub2⟩ := buildMarkdownTable_superset ts papers E hclean hnr
    obtain ⟨r₀, hr₀⟩ := List.exists_mem_of_ne_nil _ hnr
    have hCne : buildMarkdownTable ts papers E ≠ [] := by
      intro hnil
      have h1 := hsub1 r₀ hr₀
      rw [hnil, List.splitOn_nil, List.mem_singleton] at h1
      obtain ⟨p, -, heq, hcp⟩ := mem_newRows hclean r₀ hr₀
      rw [heq] at h1
      exact toMarkdownRow_ne_nil p hcp h1
    have hall : ∀ p ∈ papers,
        p.title ∈ extractExistingTitles (buildMarkdownTable ts papers E) := by
      intro p hpp
      rw [show extractExistingTitles (buildMarkdownTable ts papers E) =
          (((buildMarkdownTable ts papers E).splitOn '\n').map titleOfLine).flatten from by
        unfold extractExistingTitles
        rw [if_pos hCne]]
      rw [List.mem_flatten]
      by_cases htit : p.title ∈ extractExistingTitles E
      · have hEne : E ≠ [] := by
          intro h
          rw [h] at htit
          simp [extractExistingTitles] at htit
        unfold extractExistingTitles at htit
        rw [if_pos hEne, List.mem_flatten] at htit
        obtain ⟨tl, htl, hmem⟩ := htit
        obtain ⟨line, hline, rfl⟩ := List.mem_map.mp htl
        exact ⟨titleOfLine line, List.mem_map_of_mem _ (hsub2 line hline), hmem⟩
      · have hpfil : p ∈ papers.filter (fun q => q.title ∉ extractExistingTitles E) :=
          List.mem_filter.mpr ⟨hpp, by simpa using htit⟩
        have hrow : toMarkdownRow p ∈
            (papers.filter (fun q => q.title ∉ extractExistingTitles E)).map toMarkdownRow :=
          List.mem_map_of_mem _ hpfil
        refine ⟨titleOfLine (toMarkdownRow p), List.mem_map_of_mem _ (hsub1 _ hrow), ?_⟩
        rw [titleOfLine_row p (hclean p hpp)]
        exact List.mem_singleton_self _
    have hnr2 : ((papers.filter (fun p =>
        p.title ∉ extractExistingTitles (buildMarkdownTable ts papers E))).map toMarkdownRow) = [] := by
      rw [List.map_eq_nil_iff, List.filter_eq_nil_iff]
      intro a ha
      simp [hall a ha]
    exact buildMarkdownTable_no_new ts papers _ hnr2

/-- C10 (corrected): for paper lists whose records are clean (title and venue
already whitespace-normalized; title free of `]`, `|` and newlines; non-empty
arXiv URL free of `|` and newlines; date and venue free of newlines), the
markdown-table update is idempotent by title: feeding the output of
`_build_markdown_table` back in as the existing content and rebuilding with the
same papers returns that content unchanged, for every prior existing content;
and whenever the rebuilt content equals the existing content, `commit_papers`
performs no file update/create (at most a branch creation) and returns True.
Without the cleanliness condition idempotence fails (see the counterexample):
raw titles are compared against titles extracted from rows built with
whitespace-collapsed titles. -/
theorem github_table_idempotent (ts : List Char) (papers : List PaperMetadata)
    (hclean : ∀ p ∈ papers, cleanPaper p) :
    (∀ E : List Char,
      buildMarkdownTable ts papers (buildMarkdownTable ts papers E) =
        buildMarkdownTable ts papers E) ∧
    ∀ (cfg : GitHubCfg) (repo : RepoState),
      buildMarkdownTable ts papers (getExistingContent repo) = getExistingContent repo →
        (commitPapers cfg ts papers repo).1 = true ∧
        ∀ a ∈ (commitPapers cfg ts papers repo).2, a = CommitAction.createBranch := by
  refine ⟨fun E => buildMarkdownTable_idem ts papers hclean E, ?_⟩
  intro cfg repo heq
  by_cases hp : papers = []
  · subst hp
    have h0 : commitPapers cfg ts [] repo = (true, []) := by simp [commitPapers]
    rw [h0]
    refine ⟨rfl, ?_⟩
    intro a ha
    simp at ha
  · have hres : commitPapers cfg ts papers repo =
        (true, if repo.branchExists then [] else [CommitAction.createBranch]) := by
      simp only [commitPapers]
      rw [if_neg hp, if_pos heq]
    rw [hres]
    refine ⟨rfl, ?_⟩
    intro a ha
    by_cases hb : repo.branchExists = true
    · rw [if_pos hb] at ha
      simp at ha
    · rw [if_neg hb] at ha
      rw [List.mem_singleton] at ha
      exact ha

/-- Witness for C10: a concrete clean record satisfies the cleanliness
hypothesis, and the table built from it is a fixed point of a rebuild. -/
theorem github_table_idempotent_witness :
    (∀ p ∈ [cleanMdPaper], cleanPaper p) ∧
    buildMarkdownTable mdTs [cleanMdPaper]
        (buildMarkdownTable mdTs [cleanMdPaper] []) =
      buildMarkdownTable mdTs [cleanMdPaper] [] := by
  have hclean : ∀ p ∈ [cleanMdPaper], cleanPaper p := by
    intro p hp
    rw [List.mem_singleton] at hp
    subst hp
    unfold cleanPaper
    decide
  exact ⟨hclean, (github_table_idempotent mdTs [cleanMdPaper] hclean).1 []⟩

set_option maxRecDepth 4000 in
/-- Counterexample to C10 as stated for arbitrary papers: a record whose title
contains a double space is re-added on the second run, because the stored row
carries the whitespace-collapsed title while deduplication compares the raw
title against the extracted titles. -/
theorem github_table_idempotent_counterexample :
    buildMarkdownTable mdTs [dirtyMdPaper]
        (buildMarkdownTable mdTs [dirtyMdPaper] []) ≠
      buildMarkdownTable mdTs [dirtyMdPaper] [] := by
  decide
